import Mathlib

/-! # KEDA scalers: Azure storage queue and MySQL

A shallow embedding of `pkg/scalers/azure_queue_scaler.go`, `pkg/scalers/azure_queue.go`
and `pkg/scalers/mysql_scaler.go`.

Conventions of the embedding.

* A Go `map[string]string` is an association list read with `List.lookup`
  (`val, ok := m[k]` is `m.lookup k`, and the one-value read `m[k]` is `index m k`).
* Go's `int` is the 64-bit signed integer of the platforms KEDA is built for
  (`intSize`); `int32` values are integers in `[-2^31, 2^31)`, and the conversion
  `int32(x)` is `toInt32`.
* A Go `error` is a `GoError` value; a function returning `(v, err)` where the value is
  `nil` on every error path returns `Except GoError _`, and a function whose value
  component matters on the error path too returns a pair `(v, Option GoError)`.
* Remote effects (opening the queue endpoint, reading its properties, peeking, running
  the SQL query) are oracles supplied by the caller.
-/

namespace Keda

/-! ## Go runtime pieces -/

/-- A Go `map[string]string`. -/
abbrev GoMap := List (String × String)

/-- The one-value map read `m[k]`: the zero value `""` when the key is absent. -/
def index (m : GoMap) (k : String) : String :=
  match m.lookup k with
  | some v => v
  | none => ""

/-- The two sentinel errors of `strconv`. -/
inductive NumErrKind where
  | ErrSyntax
  | ErrRange
deriving DecidableEq, Repr

/-- The value of `*strconv.NumError`. -/
structure NumError where
  Func : String
  Num : String
  Err : NumErrKind
deriving DecidableEq, Repr

/-- A Go `error`. `wrap pre e` is `fmt.Errorf(pre + "%s", e)`: its text is `pre`
followed by the text of `e`. -/
inductive GoError where
  | msg (text : String)
  | num (e : NumError)
  | wrap (pre : String) (inner : GoError)
deriving DecidableEq, Repr

deriving instance DecidableEq for Except

/-- The width of Go's `int` (`strconv.IntSize`). -/
def intSize : Nat := 64

/-- The conversion `int32(x)` of a Go `int`: the low 32 bits, read as two's complement. -/
def toInt32 (x : Int) : Int := (x + 2 ^ 31) % 2 ^ 32 - 2 ^ 31

/-- The test `'0' <= c && c <= '9'`. -/
def isDigit (c : Char) : Bool := decide ('0'.toNat ≤ c.toNat) && decide (c.toNat ≤ '9'.toNat)

/-- The digit value `c - '0'`. -/
def digitVal (c : Char) : Nat := c.toNat - '0'.toNat

/-- The loop of `strconv.ParseUint(s, 10, bitSize)`: `cutoff` is the least `n` with
`n * 10 > maxUint64` and `maxVal` is `2^bitSize - 1`. -/
def parseUintLoop (cutoff maxVal : Nat) : List Char → Nat → Except NumErrKind Nat
  | [], n => .ok n
  | c :: cs, n =>
    if isDigit c then
      if cutoff ≤ n then .error .ErrRange
      else if maxVal < n * 10 + digitVal c then .error .ErrRange
      else parseUintLoop cutoff maxVal cs (n * 10 + digitVal c)
    else .error .ErrSyntax

/-- The call `strconv.ParseUint(s, 10, 0)` on the characters of `s`. -/
def ParseUint (s : List Char) : Except NumErrKind Nat :=
  match s with
  | [] => .error .ErrSyntax
  | _ => parseUintLoop ((2 ^ 64 - 1) / 10 + 1) (2 ^ intSize - 1) s 0

/-- The call `strconv.ParseInt(s, 10, 0)` on the characters of `s`: an optional sign,
then `ParseUint`, then the signed range check against `2^(intSize-1)`. -/
def ParseInt (s : List Char) : Except NumErrKind Int :=
  match s with
  | [] => .error .ErrSyntax
  | c :: cs =>
    let neg : Bool := c = '-'
    let rest := if c = '+' ∨ c = '-' then cs else c :: cs
    match ParseUint rest with
    | .error k => .error k
    | .ok un =>
      if neg = false ∧ 2 ^ (intSize - 1) ≤ un then .error .ErrRange
      else if neg = true ∧ 2 ^ (intSize - 1) < un then .error .ErrRange
      else .ok (if neg then -(un : Int) else (un : Int))

/-- The call `strconv.Atoi(s)`. Its fast path for short strings returns what
`ParseInt(s, 10, 0)` returns, so the result is that of the general path, with the
error relabelled as coming from `Atoi`. -/
def Atoi (s : String) : Except NumError Int :=
  match ParseInt s.toList with
  | .ok n => .ok n
  | .error k => .error { Func := "Atoi", Num := s, Err := k }

/-! ## `azure_queue_scaler.go`: constants and metadata -/

def queueLengthMetricName : String := "queueLength"
def visibleQueueLengthMetricName : String := "visibleQueueLength"
def defaultTargetQueueLength : Int := 5
def externalMetricType : String := "External"
def defaultConnectionSetting : String := "AzureWebJobsStorage"

structure azureQueueMetadata where
  targetQueueLength : Int
  queueName : String
  connection : String
  useAAdPodIdentity : Bool
  accountName : String
deriving DecidableEq, Repr

structure azureQueueScaler where
  metadata : azureQueueMetadata
  podIdentity : String
deriving DecidableEq, Repr

/-- Lines 71-76 of `parseAzureQueueMetadata`: the legacy `useAAdPodIdentity` flag,
read only when no pod identity was requested. -/
def legacyPodAuth (metadata : GoMap) (podAuth : String) : String :=
  match metadata.lookup "useAAdPodIdentity" with
  | some val =>
    if podAuth = "" then
      if val = "true" then "azure" else podAuth
    else podAuth
  | none => podAuth

/-- The function `parseAzureQueueMetadata`: on success the metadata and the effective pod
identity, otherwise the error (the Go function then returns `nil, ""`). -/
def parseAzureQueueMetadata (metadata resolvedEnv authParams : GoMap) (podAuth : String) :
    Except GoError (azureQueueMetadata × String) :=
  let md0 : azureQueueMetadata :=
    { targetQueueLength := defaultTargetQueueLength, queueName := "", connection := "",
      useAAdPodIdentity := false, accountName := "" }
  let parsed : Except GoError azureQueueMetadata :=
    match metadata.lookup queueLengthMetricName with
    | some val =>
      match Atoi val with
      | .error err =>
        .error (.wrap ("Error parsing azure queue metadata " ++ queueLengthMetricName ++ ": ")
          (.num err))
      | .ok queueLength => .ok { md0 with targetQueueLength := queueLength }
    | none => .ok md0
  match parsed with
  | .error e => .error e
  | .ok md1 =>
    match metadata.lookup "queueName" with
    | none => .error (.msg "no queueName given")
    | some val =>
      if val = "" then .error (.msg "no queueName given")
      else
        let md2 := { md1 with queueName := val }
        let podAuth := legacyPodAuth metadata podAuth
        if podAuth = "" ∨ podAuth = "none" then
          let connection := index authParams "connection"
          if connection ≠ "" then
            .ok ({ md2 with connection := connection }, podAuth)
          else
            let connectionSetting :=
              match metadata.lookup "connection" with
              | some val => if val ≠ "" then val else defaultConnectionSetting
              | none => defaultConnectionSetting
            match resolvedEnv.lookup connectionSetting with
            | some val => .ok ({ md2 with connection := val }, podAuth)
            | none => .error (.msg "no connection setting given")
        else if podAuth = "azure" then
          match metadata.lookup "accountName" with
          | none => .error (.msg "no accountName given")
          | some val =>
            if val = "" then .error (.msg "no accountName given")
            else .ok ({ md2 with accountName := val }, podAuth)
        else
          .error (.msg ("pod identity " ++ podAuth ++ " not supported for azure storage queues"))

/-- The constructor `NewAzureQueueScaler`. -/
def NewAzureQueueScaler (resolvedEnv metadata authParams : GoMap) (podIdentity : String) :
    Except GoError azureQueueScaler :=
  match parseAzureQueueMetadata metadata resolvedEnv authParams podIdentity with
  | .error err => .error (.wrap "error parsing azure queue metadata: " err)
  | .ok (md, podIdentity) => .ok { metadata := md, podIdentity := podIdentity }

/-! ## `mysql_scaler.go`: constants and metadata -/

def mySQLMetricName : String := "MySQLQueryValue"
def defaultMySQLPassword : String := ""

structure mySQLMetadata where
  connectionString : String
  username : String
  password : String
  host : String
  port : String
  dbName : String
  query : String
  queryValue : Int
deriving DecidableEq, Repr

/-- The function `parseMySQLMetadata`. -/
def parseMySQLMetadata (resolvedEnv metadata authParams : GoMap) : Except GoError mySQLMetadata :=
  let md0 : mySQLMetadata :=
    { connectionString := "", username := "", password := "", host := "", port := "",
      dbName := "", query := "", queryValue := 0 }
  match metadata.lookup "query" with
  | none => .error (.msg "no query given")
  | some q =>
    let md1 := { md0 with query := q }
    match metadata.lookup "queryValue" with
    | none => .error (.msg "no queryValue given")
    | some val =>
      match Atoi val with
      | .error err => .error (.wrap "queryValue parsing error " (.num err))
      | .ok queryValue =>
        let md2 := { md1 with queryValue := queryValue }
        match authParams.lookup "connectionString" with
        | some val => .ok { md2 with connectionString := val }
        | none =>
          match metadata.lookup "connectionString" with
          | some hostSetting =>
            match resolvedEnv.lookup hostSetting with
            | some val => .ok { md2 with connectionString := val }
            | none => .ok md2
          | none =>
            let md3 := { md2 with connectionString := "" }
            match metadata.lookup "host" with
            | none => .error (.msg "no host given")
            | some host =>
              match metadata.lookup "port" with
              | none => .error (.msg "no port given")
              | some port =>
                match metadata.lookup "username" with
                | none => .error (.msg "no username given")
                | some username =>
                  match metadata.lookup "dbName" with
                  | none => .error (.msg "no dbName given")
                  | some dbName =>
                    let md4 := { md3 with host := host, port := port, username := username,
                                          dbName := dbName, password := defaultMySQLPassword }
                    match authParams.lookup "password" with
                    | some val => .ok { md4 with password := val }
                    | none =>
                      match metadata.lookup "password" with
                      | some val =>
                        if val ≠ "" then
                          match resolvedEnv.lookup val with
                          | some pass => .ok { md4 with password := pass }
                          | none => .ok md4
                        else .ok md4
                      | none => .ok md4

/-! ## `azure_queue.go`: the queue client -/

/-- The endpoint handle `azqueue.QueueURL`. -/
abbrev QueueURL := String

/-- The remote side of the queue client. `queueURL` is the outcome of `GetAzureQueueURL`
(credential selection, endpoint construction and the idempotent `Create`),
`approximateMessagesCount` that of `GetProperties` followed by
`ApproximateMessagesCount`, and `peekNumMessages` that of `NewMessagesURL().Peek`
followed by `NumMessages`; counts are `int32` values. -/
structure AzureQueueService where
  queueURL : String → String → String → String → Except GoError QueueURL
  approximateMessagesCount : QueueURL → Except GoError Int
  peekNumMessages : QueueURL → Int → Except GoError Int

/-- The function `GetAzureQueueLength`: `(-1, err)` on either failure. -/
def GetAzureQueueLength (svc : AzureQueueService)
    (podIdentity connectionString queueName accountName : String) : Int × Option GoError :=
  match svc.queueURL podIdentity connectionString queueName accountName with
  | .error err => (-1, some err)
  | .ok queueURL =>
    match svc.approximateMessagesCount queueURL with
    | .error err => (-1, some err)
    | .ok count => (count, none)

/-- The function `GetAzureVisibleQueueLength`: `(-1, err)` on either failure. -/
def GetAzureVisibleQueueLength (svc : AzureQueueService)
    (podIdentity connectionString queueName accountName : String) (maxCount : Int) :
    Int × Option GoError :=
  match svc.queueURL podIdentity connectionString queueName accountName with
  | .error err => (-1, some err)
  | .ok queueURL =>
    match svc.peekNumMessages queueURL maxCount with
    | .error err => (-1, some err)
    | .ok count => (count, none)

/-! ## The scaler operations -/

/-- The value of `external_metrics.ExternalMetricValue`: the quantity is the integer it was
built from and the timestamp is the reading of the clock passed in. -/
structure ExternalMetricValue where
  MetricName : String
  Value : Int
  Timestamp : Nat
deriving DecidableEq, Repr

/-- The method `azureQueueScaler.IsActive`. -/
def azureQueueScaler.IsActive (svc : AzureQueueService) (s : azureQueueScaler) :
    Bool × Option GoError :=
  match GetAzureQueueLength svc s.podIdentity s.metadata.connection s.metadata.queueName
      s.metadata.accountName with
  | (_, some err) => (false, some err)
  | (length, none) => (decide (length > 0), none)

/-- The `maxCount` argument that `azureQueueScaler.GetMetrics` hands to
`GetAzureVisibleQueueLength` (line 171). -/
def azureQueueScaler.peekMaxCount (s : azureQueueScaler) : Int :=
  toInt32 s.metadata.targetQueueLength

/-- The method `azureQueueScaler.GetMetrics`; `now` is the reading of `metav1.Now()`. -/
def azureQueueScaler.GetMetrics (svc : AzureQueueService) (now : Nat) (s : azureQueueScaler)
    (metricName : String) : List ExternalMetricValue × Option GoError :=
  let fetched : Option (Int × Option GoError) :=
    if metricName = queueLengthMetricName then
      some (GetAzureQueueLength svc s.podIdentity s.metadata.connection s.metadata.queueName
        s.metadata.accountName)
    else if metricName = visibleQueueLengthMetricName then
      some (GetAzureVisibleQueueLength svc s.podIdentity s.metadata.connection
        s.metadata.queueName s.metadata.accountName s.peekMaxCount)
    else none
  match fetched with
  | none => ([], some (.msg ("no metric found with name: " ++ metricName)))
  | some (_, some err) => ([], some err)
  | some (queuelen, none) =>
    ([] ++ [{ MetricName := metricName, Value := queuelen, Timestamp := now }], none)

/-- The scaler of `mysql_scaler.go`. The `*sql.DB` handle is the oracle giving, for a query
text, the outcome of `QueryRow(query).Scan(&value)`. -/
structure mySQLScaler where
  metadata : mySQLMetadata
  connection : String → Except GoError Int

/-- The method `mySQLScaler.getQueryResult`: `(0, err)` on failure. -/
def mySQLScaler.getQueryResult (s : mySQLScaler) : Int × Option GoError :=
  match s.connection s.metadata.query with
  | .error err => (0, some err)
  | .ok value => (value, none)

/-- The method `mySQLScaler.IsActive`. -/
def mySQLScaler.IsActive (s : mySQLScaler) : Bool × Option GoError :=
  match s.getQueryResult with
  | (_, some err) => (false, some err)
  | (messages, none) => (decide (messages > 0), none)

/-- The method `mySQLScaler.GetMetrics`; `now` is the reading of `metav1.Now()`. The
parameter `metricName` is not read by the body. -/
def mySQLScaler.GetMetrics (now : Nat) (s : mySQLScaler) (_metricName : String) :
    List ExternalMetricValue × Option GoError :=
  match s.getQueryResult with
  | (_, some err) => ([], some (.wrap "error inspecting MySQL: " err))
  | (num, none) =>
    ([] ++ [{ MetricName := mySQLMetricName, Value := num, Timestamp := now }], none)

/-! ## Metric descriptors -/

/-- The value of `v2beta1.ExternalMetricSource`; a quantity is the integer it was built
from, and a `nil` quantity is `none`. -/
structure ExternalMetricSource where
  MetricName : String
  TargetValue : Option Int
  TargetAverageValue : Option Int
deriving DecidableEq, Repr

/-- The value of `v2beta1.MetricSpec`, with the field `Type` written `Type_` and the
pointer fields other than `External` left out (the scalers never set them). -/
structure MetricSpec where
  Type_ : String
  External : Option ExternalMetricSource
deriving DecidableEq, Repr

/-- The method `azureQueueScaler.GetMetricSpecForScaling`. -/
def azureQueueScaler.GetMetricSpecForScaling (s : azureQueueScaler) : List MetricSpec :=
  let targetQueueLengthQty : Int := s.metadata.targetQueueLength
  let externalMetric : ExternalMetricSource :=
    { MetricName := queueLengthMetricName, TargetValue := none,
      TargetAverageValue := some targetQueueLengthQty }
  let metricSpec : MetricSpec := { External := some externalMetric, Type_ := externalMetricType }
  [metricSpec]

/-- The method `azureQueueScaler.GetMetricSpecForScalingJob`. -/
def azureQueueScaler.GetMetricSpecForScalingJob (s : azureQueueScaler) : List MetricSpec :=
  let targetQueueLengthQty : Int := s.metadata.targetQueueLength
  let externalMetric : ExternalMetricSource :=
    { MetricName := visibleQueueLengthMetricName, TargetValue := none,
      TargetAverageValue := some targetQueueLengthQty }
  let metricSpec : MetricSpec := { External := some externalMetric, Type_ := externalMetricType }
  [metricSpec]

/-- The method `mySQLScaler.GetMetricSpecForScaling`. -/
def mySQLScaler.GetMetricSpecForScaling (s : mySQLScaler) : List MetricSpec :=
  let targetQueryValue : Int := s.metadata.queryValue
  let externalMetric : ExternalMetricSource :=
    { MetricName := mySQLMetricName, TargetValue := none,
      TargetAverageValue := some targetQueryValue }
  let metricSpec : MetricSpec := { External := some externalMetric, Type_ := externalMetricType }
  [metricSpec]

/-- The method `mySQLScaler.GetMetricSpecForScalingJob`: it logs that the metric is not
implemented and returns the empty list. -/
def mySQLScaler.GetMetricSpecForScalingJob (_s : mySQLScaler) : List MetricSpec :=
  []

/-! ## Predicates on inputs used by the statements -/

/-- The entry `queueLength` of the declared metadata is absent or is accepted by `Atoi`. -/
def queueLengthOK (metadata : GoMap) : Bool :=
  match metadata.lookup queueLengthMetricName with
  | none => true
  | some v => (Atoi v).toBool

/-- The entry `queryValue` of the declared metadata is present and accepted by `Atoi`. -/
def queryValueOK (metadata : GoMap) : Bool :=
  match metadata.lookup "queryValue" with
  | none => false
  | some v => (Atoi v).toBool

/-- A queue service whose endpoint always opens, reporting `n` messages and answering a
peek with the `maxCount` it was asked for. -/
def echoService (n : Int) : AzureQueueService :=
  { queueURL := fun _ _ queueName _ => .ok queueName
    approximateMessagesCount := fun _ => .ok n
    peekNumMessages := fun _ maxCount => .ok maxCount }

/-- A queue service whose endpoint cannot be opened. -/
def downService (e : GoError) : AzureQueueService :=
  { queueURL := fun _ _ _ _ => .error e
    approximateMessagesCount := fun _ => .ok 0
    peekNumMessages := fun _ _ => .ok 0 }

/-- A queue scaler as `NewAzureQueueScaler` builds it for Scenario A. -/
def sampleQueueScaler : azureQueueScaler :=
  { metadata := { targetQueueLength := 5, queueName := "q1", connection := "conn",
                  useAAdPodIdentity := false, accountName := "" }
    podIdentity := "" }

/-- Metadata as `parseMySQLMetadata` builds it from a connection string. -/
def sampleSQLMetadata : mySQLMetadata :=
  { connectionString := "user:pw@tcp(db:3306)/app", username := "", password := "",
    host := "", port := "", dbName := "", query := "SELECT COUNT(*) FROM t",
    queryValue := 10 }

/-- A MySQL scaler whose query returns `r`. -/
def sampleSQLScaler (r : Except GoError Int) : mySQLScaler :=
  { metadata := sampleSQLMetadata, connection := fun _ => r }

/-- A queue service whose endpoint opens, reporting `len` messages and `vis` visible ones
whatever `maxCount` is. -/
def fixedService (len vis : Int) : AzureQueueService :=
  { queueURL := fun _ _ queueName _ => .ok queueName
    approximateMessagesCount := fun _ => .ok len
    peekNumMessages := fun _ _ => .ok vis }

/-- The number read from a digit string, left to right, starting from `n`. -/
def digitsValue : List Char → Nat → Nat
  | [], n => n
  | c :: cs, n => digitsValue cs (n * 10 + digitVal c)

/-- The integer denoted by a decimal numeral (an optional sign `+` or `-`, then one or more
digits `0`..`9`), of any size; `none` for any other string. -/
def decimalValue (s : String) : Option Int :=
  match s.toList with
  | [] => none
  | c :: cs =>
    let body := if c = '+' ∨ c = '-' then cs else c :: cs
    if body ≠ [] ∧ body.all isDigit = true then
      some (if c = '-' then -(digitsValue body 0 : Int) else (digitsValue body 0 : Int))
    else none

/-- The name under which the queue resolver looks the connection up in `resolvedEnv`:
`declared["connection"]` when present and non-empty, else `AzureWebJobsStorage`. -/
def connectionSettingName (metadata : GoMap) : String :=
  match metadata.lookup "connection" with
  | some val => if val ≠ "" then val else defaultConnectionSetting
  | none => defaultConnectionSetting

/-- The map `m` without the key `k`. -/
def removeKey (m : GoMap) (k : String) : GoMap :=
  m.filter (fun p => p.1 != k)

/-! ## Auxiliary lemmas -/

theorem queueLengthOK_cases {metadata : GoMap} (h : queueLengthOK metadata = true) :
    metadata.lookup queueLengthMetricName = none ∨
      ∃ v n, metadata.lookup queueLengthMetricName = some v ∧ Atoi v = .ok n := by
  unfold queueLengthOK at h
  cases hl : metadata.lookup queueLengthMetricName with
  | none => exact Or.inl rfl
  | some v =>
    rw [hl] at h
    cases ha : Atoi v with
    | error e => simp [ha, Except.toBool] at h
    | ok n => exact Or.inr ⟨v, n, rfl, ha⟩

theorem queryValueOK_cases {metadata : GoMap} (h : queryValueOK metadata = true) :
    ∃ v n, metadata.lookup "queryValue" = some v ∧ Atoi v = .ok n := by
  unfold queryValueOK at h
  cases hl : metadata.lookup "queryValue" with
  | none => simp [hl] at h
  | some v =>
    rw [hl] at h
    cases ha : Atoi v with
    | error e => simp [ha, Except.toBool] at h
    | ok n => exact ⟨v, n, rfl, ha⟩

/-- A successful `parseAzureQueueMetadata` returns the mode computed by `legacyPodAuth`. -/
theorem parseAzure_mode {metadata resolvedEnv authParams : GoMap} {podAuth mode : String}
    {md : azureQueueMetadata}
    (h : parseAzureQueueMetadata metadata resolvedEnv authParams podAuth = .ok (md, mode)) :
    mode = legacyPodAuth metadata podAuth := by
  unfold parseAzureQueueMetadata at h
  simp only at h
  split at h
  · exact absurd h (by simp)
  · split at h
    · exact absurd h (by simp)
    · split at h
      · exact absurd h (by simp)
      · split at h
        · split at h
          · simp only [Except.ok.injEq, Prod.mk.injEq] at h
            exact h.2.symm
          · split at h
            · simp only [Except.ok.injEq, Prod.mk.injEq] at h
              exact h.2.symm
            · exact absurd h (by simp)
        · split at h
          · split at h
            · exact absurd h (by simp)
            · split at h
              · exact absurd h (by simp)
              · simp only [Except.ok.injEq, Prod.mk.injEq] at h
                exact h.2.symm
          · exact absurd h (by simp)

/-- The effective mode is `"azure"` exactly when `"azure"` was requested, or nothing
was requested and the legacy flag is `"true"`. -/
theorem legacyPodAuth_eq_azure_iff (metadata : GoMap) (podAuth : String) :
    legacyPodAuth metadata podAuth = "azure" ↔
      (podAuth = "azure" ∨
        (podAuth = "" ∧ metadata.lookup "useAAdPodIdentity" = some "true")) := by
  unfold legacyPodAuth
  cases hf : metadata.lookup "useAAdPodIdentity" with
  | none =>
    constructor
    · intro h
      exact Or.inl h
    · rintro (h | ⟨_, h⟩)
      · exact h
      · exact absurd h (by simp)
  | some val =>
    by_cases hp : podAuth = ""
    · subst hp
      by_cases hv : val = "true"
      · subst hv
        simp
      · have h1 : ¬ ("" = "azure") := by decide
        simp [hv, h1]
    · simp only [hp, if_false, false_and, or_false]

/-! ## C1: unrecognised metric names -/

/-- C1 (as stated, refuted): the MySQL scaler, asked for the metric name `"bogus"`, which is
not the name `MySQLQueryValue` it advertises, answers a successful fetch of `42` with one
sample and no error. -/
theorem C1_mysql_unknown_name_succeeds :
    "bogus" ≠ mySQLMetricName ∧
      mySQLScaler.GetMetrics 7 (sampleSQLScaler (.ok 42)) "bogus" =
        ([{ MetricName := "MySQLQueryValue", Value := 42, Timestamp := 7 }], none) := by
  decide

/-- C1 (amended): for the queue scaler every metric name other than `queueLength` and
`visibleQueueLength` yields the error `no metric found with name: <name>` and the empty
list, whatever the queue service would answer; the MySQL scaler does not read the metric
name, so for every name its result is the one for `MySQLQueryValue`, and it returns an
error exactly when the query fetch fails. -/
theorem C1_unknown_metric_name (svc : AzureQueueService) (now : Nat) (qs : azureQueueScaler)
    (ms : mySQLScaler) (name : String) :
    (name ≠ queueLengthMetricName → name ≠ visibleQueueLengthMetricName →
        qs.GetMetrics svc now name =
          ([], some (.msg ("no metric found with name: " ++ name)))) ∧
      ms.GetMetrics now name = ms.GetMetrics now mySQLMetricName ∧
      ((ms.GetMetrics now name).2 = none ↔ ms.getQueryResult.2 = none) := by
  refine ⟨fun h1 h2 => ?_, rfl, ?_⟩
  · simp [azureQueueScaler.GetMetrics, h1, h2]
  · unfold mySQLScaler.GetMetrics
    rcases hr : ms.getQueryResult with ⟨v, _ | e⟩ <;> simp

/-- Witness for C1: the name `"bogus"` on a queue whose fetches would all succeed. -/
theorem C1_unknown_metric_name_witness :
    sampleQueueScaler.GetMetrics (echoService 3) 7 "bogus" =
      ([], some (.msg ("no metric found with name: " ++ "bogus"))) :=
  (C1_unknown_metric_name (echoService 3) 7 sampleQueueScaler (sampleSQLScaler (.ok 42))
    "bogus").1 (by decide) (by decide)

/-! ## C2: `IsActive` -/

/-- C2: for both scalers, when the fetch yields the integer `v` with no error, `IsActive`
returns `v > 0` with no error (so `true` exactly when `v > 0`); when the fetch yields the
error `e`, `IsActive` returns `false` together with that same error `e`, so a failed fetch
is never a successful `false`. -/
theorem C2_isActive (svc : AzureQueueService) (qs : azureQueueScaler) (ms : mySQLScaler) :
    (∀ v : Int,
        GetAzureQueueLength svc qs.podIdentity qs.metadata.connection qs.metadata.queueName
            qs.metadata.accountName = (v, none) →
          qs.IsActive svc = (decide (v > 0), none) ∧ ((qs.IsActive svc).1 = true ↔ v > 0)) ∧
      (∀ (x : Int) (e : GoError),
        GetAzureQueueLength svc qs.podIdentity qs.metadata.connection qs.metadata.queueName
            qs.metadata.accountName = (x, some e) →
          qs.IsActive svc = (false, some e)) ∧
      (∀ v : Int, ms.getQueryResult = (v, none) →
          ms.IsActive = (decide (v > 0), none) ∧ (ms.IsActive.1 = true ↔ v > 0)) ∧
      (∀ (x : Int) (e : GoError), ms.getQueryResult = (x, some e) →
          ms.IsActive = (false, some e)) := by
  refine ⟨fun v h => ?_, fun x e h => ?_, fun v h => ?_, fun x e h => ?_⟩
  · simp [azureQueueScaler.IsActive, h]
  · simp [azureQueueScaler.IsActive, h]
  · simp [mySQLScaler.IsActive, h]
  · simp [mySQLScaler.IsActive, h]

/-- Witness for C2: a queue of 3 messages is active, and a MySQL fetch failing with
`connection refused` gives `false` with that error. -/
theorem C2_isActive_witness :
    (sampleQueueScaler.IsActive (echoService 3) = (decide ((3 : Int) > 0), none) ∧
        ((sampleQueueScaler.IsActive (echoService 3)).1 = true ↔ (3 : Int) > 0)) ∧
      (sampleSQLScaler (.error (.msg "connection refused"))).IsActive =
        (false, some (.msg "connection refused")) :=
  ⟨(C2_isActive (echoService 3) sampleQueueScaler (sampleSQLScaler (.ok 42))).1 3 (by decide),
   (C2_isActive (echoService 3) sampleQueueScaler
      (sampleSQLScaler (.error (.msg "connection refused")))).2.2.2 0
      (.msg "connection refused") (by decide)⟩

/-! ## C3: the auth parameter takes precedence -/

/-- C3: (queue) with `queueLength` absent or numeric, a non-empty `queueName`, effective
identity mode `""` or `"none"` and a non-empty `authParams["connection"] = c`,
`parseAzureQueueMetadata` succeeds with `connection = c`, whatever `declared["connection"]`
and `resolvedEnv` hold; (SQL) with `query` present, a numeric `queryValue` and a non-empty
`authParams["connectionString"] = c`, `parseMySQLMetadata` succeeds with
`connectionString = c`, whatever `declared` and `resolvedEnv` hold besides. -/
theorem C3_auth_param_precedence (metadata resolvedEnv authParams : GoMap)
    (podAuth c : String) (hc : c ≠ "") :
    (queueLengthOK metadata = true →
        (∃ q, metadata.lookup "queueName" = some q ∧ q ≠ "") →
        (legacyPodAuth metadata podAuth = "" ∨ legacyPodAuth metadata podAuth = "none") →
        authParams.lookup "connection" = some c →
        ∃ md, parseAzureQueueMetadata metadata resolvedEnv authParams podAuth =
            .ok (md, legacyPodAuth metadata podAuth) ∧ md.connection = c) ∧
      ((∃ q, metadata.lookup "query" = some q) →
        queryValueOK metadata = true →
        authParams.lookup "connectionString" = some c →
        ∃ md, parseMySQLMetadata resolvedEnv metadata authParams = .ok md ∧
            md.connectionString = c) := by
  constructor
  · rintro hlen ⟨q, hname, hq⟩ hmode hauth
    rcases queueLengthOK_cases hlen with h | ⟨v, n, h, ha⟩
    · simp [parseAzureQueueMetadata, h, hname, hq, hmode, index, hauth, hc]
    · simp [parseAzureQueueMetadata, h, ha, hname, hq, hmode, index, hauth, hc]
  · rintro ⟨q, hq⟩ hval hauth
    obtain ⟨v, n, hv, ha⟩ := queryValueOK_cases hval
    simp [parseMySQLMetadata, hq, hv, ha, hauth]

/-- Witness for C3: the auth parameter `"secret"` wins over a declared key that the
environment resolves to `"fromEnv"`, for the queue and for SQL. -/
theorem C3_auth_param_precedence_witness :
    (∃ md, parseAzureQueueMetadata
          [("queueName", "q1"), ("connection", "KEY"), ("query", "SELECT 1"),
            ("queryValue", "10"), ("connectionString", "KEY")]
          [("KEY", "fromEnv")]
          [("connection", "secret"), ("connectionString", "secret")] "none" =
        .ok (md, legacyPodAuth
          [("queueName", "q1"), ("connection", "KEY"), ("query", "SELECT 1"),
            ("queryValue", "10"), ("connectionString", "KEY")] "none") ∧
        md.connection = "secret") ∧
      (∃ md, parseMySQLMetadata [("KEY", "fromEnv")]
          [("queueName", "q1"), ("connection", "KEY"), ("query", "SELECT 1"),
            ("queryValue", "10"), ("connectionString", "KEY")]
          [("connection", "secret"), ("connectionString", "secret")] = .ok md ∧
        md.connectionString = "secret") :=
  ⟨(C3_auth_param_precedence _ _ _ "none" "secret" (by decide)).1 (by decide)
      ⟨"q1", by decide, by decide⟩ (by decide) (by decide),
   (C3_auth_param_precedence _ _ _ "none" "secret" (by decide)).2
      ⟨"SELECT 1", by decide⟩ (by decide) (by decide)⟩

/-! ## C4: identity-mode resolution -/

/-- C4: on every input on which `parseAzureQueueMetadata` succeeds, the returned mode is
the requested mode when that is non-empty (even when `declared["useAAdPodIdentity"]` is
`"true"`); when the requested mode is empty it is `"azure"` if
`declared["useAAdPodIdentity"]` is exactly `"true"` and `""` otherwise. -/
theorem C4_identity_mode (metadata resolvedEnv authParams : GoMap) (podAuth mode : String)
    (md : azureQueueMetadata)
    (h : parseAzureQueueMetadata metadata resolvedEnv authParams podAuth = .ok (md, mode)) :
    (podAuth ≠ "" → mode = podAuth) ∧
      (podAuth = "" → metadata.lookup "useAAdPodIdentity" = some "true" → mode = "azure") ∧
      (podAuth = "" → metadata.lookup "useAAdPodIdentity" ≠ some "true" → mode = "") := by
  rw [parseAzure_mode h]
  refine ⟨fun hp => ?_, fun hp hf => ?_, fun hp hf => ?_⟩
  · unfold legacyPodAuth
    split <;> simp [hp]
  · simp [legacyPodAuth, hp, hf]
  · unfold legacyPodAuth
    split
    · next val hval =>
      have : val ≠ "true" := fun hv => hf (by rw [hval, hv])
      simp [hp, this]
    · exact hp

/-- Witness for C4: an explicit `"none"` stands although the legacy flag is `"true"`, and
an empty request with the flag `"true"` becomes `"azure"`. -/
theorem C4_identity_mode_witness :
    (parseAzureQueueMetadata
          [("queueName", "q1"), ("useAAdPodIdentity", "true"), ("accountName", "acct")]
          [("AzureWebJobsStorage", "conn")] [] "none" =
        .ok ({ targetQueueLength := 5, queueName := "q1", connection := "conn",
               useAAdPodIdentity := false, accountName := "" }, "none") ∧
        "none" = "none") ∧
      (parseAzureQueueMetadata
          [("queueName", "q1"), ("useAAdPodIdentity", "true"), ("accountName", "acct")]
          [("AzureWebJobsStorage", "conn")] [] "" =
        .ok ({ targetQueueLength := 5, queueName := "q1", connection := "",
               useAAdPodIdentity := false, accountName := "acct" }, "azure") ∧
        "azure" = "azure") :=
  ⟨⟨by decide,
    (C4_identity_mode
      [("queueName", "q1"), ("useAAdPodIdentity", "true"), ("accountName", "acct")]
      [("AzureWebJobsStorage", "conn")] [] "none" "none"
      { targetQueueLength := 5, queueName := "q1", connection := "conn",
        useAAdPodIdentity := false, accountName := "" } (by decide)).1 (by decide)⟩,
   ⟨by decide,
    (C4_identity_mode
      [("queueName", "q1"), ("useAAdPodIdentity", "true"), ("accountName", "acct")]
      [("AzureWebJobsStorage", "conn")] [] "" "azure"
      { targetQueueLength := 5, queueName := "q1", connection := "",
        useAAdPodIdentity := false, accountName := "acct" } (by decide)).2.1 rfl
      (by decide)⟩⟩

/-! ## C5: token mode skips the connection path -/

/-- C5: when the effective identity mode is `"azure"`, `queueLength` is absent or numeric
and `queueName` is non-empty, `parseAzureQueueMetadata` succeeds if and only if
`declared["accountName"]` is present and non-empty; on success `accountName` is the
declared value, `connection` is empty and the mode is `"azure"`; on failure the error is
`no accountName given`; and the outcome is the same for any other `resolvedEnv` and
`authParams`. -/
theorem C5_token_mode (metadata resolvedEnv authParams : GoMap) (podAuth : String)
    (hlen : queueLengthOK metadata = true)
    (hname : ∃ q, metadata.lookup "queueName" = some q ∧ q ≠ "")
    (hreq : podAuth = "azure" ∨
      (podAuth = "" ∧ metadata.lookup "useAAdPodIdentity" = some "true")) :
    ((∃ r, parseAzureQueueMetadata metadata resolvedEnv authParams podAuth = .ok r) ↔
        ∃ a, metadata.lookup "accountName" = some a ∧ a ≠ "") ∧
      (∀ md mode, parseAzureQueueMetadata metadata resolvedEnv authParams podAuth =
          .ok (md, mode) →
        metadata.lookup "accountName" = some md.accountName ∧ md.connection = "" ∧
          mode = "azure") ∧
      (∀ e, parseAzureQueueMetadata metadata resolvedEnv authParams podAuth = .error e →
        e = .msg "no accountName given") ∧
      (∀ resolvedEnv2 authParams2 : GoMap,
        parseAzureQueueMetadata metadata resolvedEnv2 authParams2 podAuth =
          parseAzureQueueMetadata metadata resolvedEnv authParams podAuth) := by
  obtain ⟨q, hq, hqne⟩ := hname
  have hmode : legacyPodAuth metadata podAuth = "azure" :=
    (legacyPodAuth_eq_azure_iff metadata podAuth).2 hreq
  have key : ∀ env auth : GoMap, ∃ t : Int,
      parseAzureQueueMetadata metadata env auth podAuth =
        (match metadata.lookup "accountName" with
        | none => .error (.msg "no accountName given")
        | some val =>
          if val = "" then .error (.msg "no accountName given")
          else .ok ({ targetQueueLength := t, queueName := q, connection := "",
                      useAAdPodIdentity := false, accountName := val }, "azure")) ∧
      t = (match metadata.lookup queueLengthMetricName with
            | none => defaultTargetQueueLength
            | some v => match Atoi v with
              | .ok n => n
              | .error _ => defaultTargetQueueLength) := by
    intro env auth
    rcases queueLengthOK_cases hlen with h | ⟨v, n, h, ha⟩
    · refine ⟨defaultTargetQueueLength, ?_, by simp [h]⟩
      simp only [parseAzureQueueMetadata, h, hq, hqne, hmode]
      simp
    · refine ⟨n, ?_, by simp [h, ha]⟩
      simp only [parseAzureQueueMetadata, h, ha, hq, hqne, hmode]
      simp
  obtain ⟨t, ht, hteq⟩ := key resolvedEnv authParams
  refine ⟨?_, ?_, ?_, ?_⟩
  · rw [ht]
    cases ha : metadata.lookup "accountName" with
    | none => simp
    | some a =>
      by_cases hane : a = "" <;> simp [hane]
  · intro md mode hok
    rw [ht] at hok
    cases ha : metadata.lookup "accountName" with
    | none => simp [ha] at hok
    | some a =>
      by_cases hane : a = ""
      · simp [ha, hane] at hok
      · simp only [ha, hane, if_false, Except.ok.injEq, Prod.mk.injEq] at hok
        obtain ⟨hmd, hm⟩ := hok
        subst hmd
        exact ⟨rfl, rfl, hm.symm⟩
  · intro e herr
    rw [ht] at herr
    cases ha : metadata.lookup "accountName" with
    | none => simpa [ha, eq_comm] using herr
    | some a =>
      by_cases hane : a = ""
      · simpa [ha, hane, eq_comm] using herr
      · simp [ha, hane] at herr
  · intro env2 auth2
    obtain ⟨t2, ht2, hteq2⟩ := key env2 auth2
    rw [ht, ht2, hteq, hteq2]

/-- Witness for C5: Scenario B, `declared = {queueName: "q1", accountName: "acct"}` with
identity mode `"azure"`. -/
theorem C5_token_mode_witness :
    (∃ r, parseAzureQueueMetadata [("queueName", "q1"), ("accountName", "acct")]
        [("AzureWebJobsStorage", "conn")] [("connection", "secret")] "azure" = .ok r) ↔
      ∃ a, List.lookup "accountName" [("queueName", "q1"), ("accountName", "acct")] = some a ∧
        a ≠ "" :=
  (C5_token_mode [("queueName", "q1"), ("accountName", "acct")]
    [("AzureWebJobsStorage", "conn")] [("connection", "secret")] "azure" (by decide)
    ⟨"q1", by decide, by decide⟩ (Or.inl rfl)).1

/-! ## C6: the discrete SQL fields -/

/-- C6: with `query` present, a numeric `queryValue` and no `connectionString` key in
`authParams` or `declared`, `parseMySQLMetadata` succeeds if and only if `host`, `port`,
`username` and `dbName` are all present in `declared`; otherwise it fails with
`no X given` for the first missing `X` in the order host, port, username, dbName; and
when the four are present it succeeds whether or not any password is given. -/
theorem C6_sql_required_fields (resolvedEnv metadata authParams : GoMap)
    (hq : ∃ q, metadata.lookup "query" = some q)
    (hval : queryValueOK metadata = true)
    (hauth : authParams.lookup "connectionString" = none)
    (hdecl : metadata.lookup "connectionString" = none) :
    ((∃ md, parseMySQLMetadata resolvedEnv metadata authParams = .ok md) ↔
        ((metadata.lookup "host").isSome ∧ (metadata.lookup "port").isSome ∧
          (metadata.lookup "username").isSome ∧ (metadata.lookup "dbName").isSome)) ∧
      (metadata.lookup "host" = none →
        parseMySQLMetadata resolvedEnv metadata authParams = .error (.msg "no host given")) ∧
      ((metadata.lookup "host").isSome → metadata.lookup "port" = none →
        parseMySQLMetadata resolvedEnv metadata authParams = .error (.msg "no port given")) ∧
      ((metadata.lookup "host").isSome → (metadata.lookup "port").isSome →
        metadata.lookup "username" = none →
        parseMySQLMetadata resolvedEnv metadata authParams =
          .error (.msg "no username given")) ∧
      ((metadata.lookup "host").isSome → (metadata.lookup "port").isSome →
        (metadata.lookup "username").isSome → metadata.lookup "dbName" = none →
        parseMySQLMetadata resolvedEnv metadata authParams =
          .error (.msg "no dbName given")) ∧
      ((metadata.lookup "host").isSome → (metadata.lookup "port").isSome →
        (metadata.lookup "username").isSome → (metadata.lookup "dbName").isSome →
        metadata.lookup "password" = none → authParams.lookup "password" = none →
        ∃ md, parseMySQLMetadata resolvedEnv metadata authParams = .ok md ∧
          md.password = "") := by
  obtain ⟨q, hq⟩ := hq
  obtain ⟨v, n, hv, ha⟩ := queryValueOK_cases hval
  cases hh : metadata.lookup "host" with
  | none => simp [parseMySQLMetadata, hq, hv, ha, hauth, hdecl, hh]
  | some host =>
    cases hp : metadata.lookup "port" with
    | none => simp [parseMySQLMetadata, hq, hv, ha, hauth, hdecl, hh, hp]
    | some port =>
      cases hu : metadata.lookup "username" with
      | none => simp [parseMySQLMetadata, hq, hv, ha, hauth, hdecl, hh, hp, hu]
      | some username =>
        cases hd : metadata.lookup "dbName" with
        | none => simp [parseMySQLMetadata, hq, hv, ha, hauth, hdecl, hh, hp, hu, hd]
        | some dbName =>
          have hsucc : ∃ md, parseMySQLMetadata resolvedEnv metadata authParams = .ok md := by
            simp only [parseMySQLMetadata, hq, hv, ha, hauth, hdecl, hh, hp, hu, hd]
            cases authParams.lookup "password" with
            | some pw => exact ⟨_, rfl⟩
            | none =>
              cases metadata.lookup "password" with
              | none => exact ⟨_, rfl⟩
              | some k =>
                by_cases hk : k = ""
                · simp [hk]
                · cases hr : resolvedEnv.lookup k <;> simp [hk, hr]
          refine ⟨by simpa using hsucc, by simp, by simp, by simp, by simp, ?_⟩
          intro _ _ _ _ hpw hapw
          simp [parseMySQLMetadata, hq, hv, ha, hauth, hdecl, hh, hp, hu, hd, hpw, hapw,
            defaultMySQLPassword]

/-- Witness for C6: Scenario C, `declared = {query, queryValue: "10"}` with no connection
fields fails with `no host given`. -/
theorem C6_sql_required_fields_witness :
    parseMySQLMetadata [] [("query", "SELECT COUNT(*) FROM t"), ("queryValue", "10")] [] =
      .error (.msg "no host given") :=
  (C6_sql_required_fields [] [("query", "SELECT COUNT(*) FROM t"), ("queryValue", "10")] []
    ⟨"SELECT COUNT(*) FROM t", by decide⟩ (by decide) (by decide) (by decide)).2.1 (by decide)

/-! ## C7: the two SQL connection forms -/

/-- C7 (as stated, refuted): `authParams["connectionString"]` is present and empty while
`declared` gives the four discrete fields. `parseMySQLMetadata` succeeds with metadata in
which neither form is populated: `connectionString` is empty, so the first form fails, and
`host` is empty although `declared["host"]` is `"db"`, so the second fails too. -/
theorem C7_sql_neither_form_populated :
    ∃ md, parseMySQLMetadata []
        [("query", "SELECT COUNT(*) FROM t"), ("queryValue", "10"), ("host", "db"),
          ("port", "3306"), ("username", "root"), ("dbName", "app")]
        [("connectionString", "")] = .ok md ∧
      ¬ (md.connectionString ≠ "" ∧ md.host = "" ∧ md.port = "" ∧ md.username = "" ∧
          md.dbName = "") ∧
      ¬ (md.connectionString = "" ∧
          List.lookup "host"
            [("query", "SELECT COUNT(*) FROM t"), ("queryValue", "10"), ("host", "db"),
              ("port", "3306"), ("username", "root"), ("dbName", "app")] = some md.host) ∧
      (md.connectionString = "" ∧ md.host = "" ∧ md.port = "" ∧ md.username = "" ∧
        md.dbName = "") :=
  ⟨{ connectionString := "", username := "", password := "", host := "", port := "",
     dbName := "", query := "SELECT COUNT(*) FROM t", queryValue := 10 },
   by decide, by decide, by decide, by decide⟩

/-- The unresolved environment key: `declared["connectionString"]` names `MYSQL_CONN`,
which `resolvedEnv` does not hold; `parseMySQLMetadata` returns no error and leaves both
connection forms empty. -/
theorem parseMySQL_unresolved_connection_key :
    parseMySQLMetadata []
        [("query", "SELECT COUNT(*) FROM t"), ("queryValue", "10"),
          ("connectionString", "MYSQL_CONN"), ("host", "db"), ("port", "3306"),
          ("username", "root"), ("dbName", "app")] [] =
      .ok { connectionString := "", username := "", password := "", host := "", port := "",
            dbName := "", query := "SELECT COUNT(*) FROM t", queryValue := 10 } := by
  decide

/-- C7 (amended): on every input on which `parseMySQLMetadata` succeeds exactly one
resolution branch was taken. If `authParams` has a `connectionString` key, the metadata
holds that value (empty or not) as `connectionString` and `host`, `port`, `username`,
`dbName`, `password` are empty. If it has none and `declared["connectionString"]` names a
key that `resolvedEnv` holds, `connectionString` is the resolved value and the discrete
fields are empty. If neither map has a `connectionString` key, `connectionString` is empty
and `host`, `port`, `username`, `dbName` are the declared values. -/
theorem C7_sql_connection_forms (resolvedEnv metadata authParams : GoMap) (md : mySQLMetadata)
    (h : parseMySQLMetadata resolvedEnv metadata authParams = .ok md) :
    (∀ c, authParams.lookup "connectionString" = some c →
        md.connectionString = c ∧ md.host = "" ∧ md.port = "" ∧ md.username = "" ∧
          md.dbName = "" ∧ md.password = "") ∧
      (authParams.lookup "connectionString" = none →
        ∀ k c, metadata.lookup "connectionString" = some k → resolvedEnv.lookup k = some c →
          md.connectionString = c ∧ md.host = "" ∧ md.port = "" ∧ md.username = "" ∧
            md.dbName = "" ∧ md.password = "") ∧
      (authParams.lookup "connectionString" = none →
        metadata.lookup "connectionString" = none →
          md.connectionString = "" ∧ metadata.lookup "host" = some md.host ∧
            metadata.lookup "port" = some md.port ∧
            metadata.lookup "username" = some md.username ∧
            metadata.lookup "dbName" = some md.dbName) := by
  unfold parseMySQLMetadata at h
  simp only at h
  split at h
  · exact absurd h (by simp)
  · split at h
    · exact absurd h (by simp)
    · split at h
      · exact absurd h (by simp)
      · refine ⟨fun c hc => ?_, fun ha k c hk hr => ?_, fun ha hd => ?_⟩
        · simp only [hc, Except.ok.injEq] at h
          subst h
          simp
        · simp only [ha, hk, hr, Except.ok.injEq] at h
          subst h
          simp
        · simp only [ha, hd] at h
          repeat' split at h
          all_goals first
            | (simp only [Except.ok.injEq] at h
               subst h
               simp [*])
            | simp at h

/-- Witness for C7: the discrete form, taken from `declared`. -/
theorem C7_sql_connection_forms_witness :
    parseMySQLMetadata []
        [("query", "SELECT 1"), ("queryValue", "10"), ("host", "db"), ("port", "3306"),
          ("username", "root"), ("dbName", "app")] [] =
      .ok { connectionString := "", username := "root", password := "", host := "db",
            port := "3306", dbName := "app", query := "SELECT 1", queryValue := 10 } ∧
      ("" = "" ∧
        List.lookup "host"
            [("query", "SELECT 1"), ("queryValue", "10"), ("host", "db"), ("port", "3306"),
              ("username", "root"), ("dbName", "app")] = some "db" ∧
        List.lookup "port"
            [("query", "SELECT 1"), ("queryValue", "10"), ("host", "db"), ("port", "3306"),
              ("username", "root"), ("dbName", "app")] = some "3306" ∧
        List.lookup "username"
            [("query", "SELECT 1"), ("queryValue", "10"), ("host", "db"), ("port", "3306"),
              ("username", "root"), ("dbName", "app")] = some "root" ∧
        List.lookup "dbName"
            [("query", "SELECT 1"), ("queryValue", "10"), ("host", "db"), ("port", "3306"),
              ("username", "root"), ("dbName", "app")] = some "app") :=
  ⟨by decide,
   (C7_sql_connection_forms []
      [("query", "SELECT 1"), ("queryValue", "10"), ("host", "db"), ("port", "3306"),
        ("username", "root"), ("dbName", "app")] []
      { connectionString := "", username := "root", password := "", host := "db",
        port := "3306", dbName := "app", query := "SELECT 1", queryValue := 10 }
      (by decide)).2.2 (by decide) (by decide)⟩

/-! ## C8: the queue connection fallback -/

/-- C8: with `queueLength` absent or numeric, a non-empty `queueName`, effective mode `""`
or `"none"` and `authParams["connection"]` absent or empty, let `key` be
`declared["connection"]` if that is present and non-empty and `AzureWebJobsStorage`
otherwise; `parseAzureQueueMetadata` succeeds with `connection = resolvedEnv[key]` when
`key` is in `resolvedEnv` and fails with `no connection setting given` when it is not.
Scenario A (`declared = {queueName: "q1"}`, no mode, `AzureWebJobsStorage = "conn"`)
yields mode `""`, connection `"conn"` and target length 5. -/
theorem C8_queue_connection_fallback (metadata resolvedEnv authParams : GoMap)
    (podAuth key : String)
    (hlen : queueLengthOK metadata = true)
    (hname : ∃ q, metadata.lookup "queueName" = some q ∧ q ≠ "")
    (hmode : legacyPodAuth metadata podAuth = "" ∨ legacyPodAuth metadata podAuth = "none")
    (hauth : authParams.lookup "connection" = none ∨ authParams.lookup "connection" = some "")
    (hkey : (∃ k, metadata.lookup "connection" = some k ∧ k ≠ "" ∧ key = k) ∨
      ((metadata.lookup "connection" = none ∨ metadata.lookup "connection" = some "") ∧
        key = "AzureWebJobsStorage")) :
    (∀ val, resolvedEnv.lookup key = some val →
        ∃ md, parseAzureQueueMetadata metadata resolvedEnv authParams podAuth =
            .ok (md, legacyPodAuth metadata podAuth) ∧ md.connection = val) ∧
      (resolvedEnv.lookup key = none →
        parseAzureQueueMetadata metadata resolvedEnv authParams podAuth =
          .error (.msg "no connection setting given")) ∧
      parseAzureQueueMetadata [("queueName", "q1")] [("AzureWebJobsStorage", "conn")] [] "" =
        .ok ({ targetQueueLength := 5, queueName := "q1", connection := "conn",
               useAAdPodIdentity := false, accountName := "" }, "") := by
  obtain ⟨q, hq, hqne⟩ := hname
  have hidx : index authParams "connection" = "" := by
    rcases hauth with h | h <;> simp [index, h]
  have hset : (match metadata.lookup "connection" with
      | some val => if val ≠ "" then val else defaultConnectionSetting
      | none => defaultConnectionSetting) = key := by
    rcases hkey with ⟨k, hk, hkne, rfl⟩ | ⟨h | h, rfl⟩
    · simp [hk, hkne]
    · simp [h, defaultConnectionSetting]
    · simp [h, defaultConnectionSetting]
  refine ⟨fun val hres => ?_, fun hres => ?_, by decide⟩
  · rcases queueLengthOK_cases hlen with h | ⟨v, n, h, ha⟩
    · simp only [parseAzureQueueMetadata, h, hq, hqne, hmode, hidx, hset, hres]
      simp
    · simp only [parseAzureQueueMetadata, h, ha, hq, hqne, hmode, hidx, hset, hres]
      simp
  · rcases queueLengthOK_cases hlen with h | ⟨v, n, h, ha⟩
    · simp only [parseAzureQueueMetadata, h, hq, hqne, hmode, hidx, hset, hres]
      simp
    · simp only [parseAzureQueueMetadata, h, ha, hq, hqne, hmode, hidx, hset, hres]
      simp

/-- Witness for C8: the declared key `MY_CONN` is looked up in `resolvedEnv`, the empty
auth parameter being skipped. -/
theorem C8_queue_connection_fallback_witness :
    ∃ md, parseAzureQueueMetadata [("queueName", "q1"), ("connection", "MY_CONN")]
        [("AzureWebJobsStorage", "conn"), ("MY_CONN", "mine")] [("connection", "")] "none" =
      .ok (md, legacyPodAuth [("queueName", "q1"), ("connection", "MY_CONN")] "none") ∧
      md.connection = "mine" :=
  (C8_queue_connection_fallback [("queueName", "q1"), ("connection", "MY_CONN")]
    [("AzureWebJobsStorage", "conn"), ("MY_CONN", "mine")] [("connection", "")] "none"
    "MY_CONN" (by decide) ⟨"q1", by decide, by decide⟩ (by decide) (Or.inr (by decide))
    (Or.inl ⟨"MY_CONN", by decide, by decide, rfl⟩)).1 "mine" (by decide)

/-! ## C9: required identifier fields -/

/-- C9 (as stated, refuted): `declared["query"]` is the empty string, and
`parseMySQLMetadata` does not fail with `no query given`: it succeeds and stores the empty
query. -/
theorem C9_sql_empty_query_accepted :
    List.lookup "query"
        [("query", ""), ("queryValue", "10"), ("host", "db"), ("port", "3306"),
          ("username", "root"), ("dbName", "app")] = some "" ∧
      parseMySQLMetadata []
          [("query", ""), ("queryValue", "10"), ("host", "db"), ("port", "3306"),
            ("username", "root"), ("dbName", "app")] [] ≠ .error (.msg "no query given") ∧
      parseMySQLMetadata []
          [("query", ""), ("queryValue", "10"), ("host", "db"), ("port", "3306"),
            ("username", "root"), ("dbName", "app")] [] =
        .ok { connectionString := "", username := "root", password := "", host := "db",
              port := "3306", dbName := "app", query := "", queryValue := 10 } := by
  decide

/-- C9 (amended): `parseMySQLMetadata` fails with `no query given` exactly when
`declared` has no `query` key (a `query` that is present is stored as it is, the empty
string included); and whenever `queueLength` is absent or numeric and
`declared["queueName"]` is absent or empty, `parseAzureQueueMetadata` fails with
`no queueName given`. -/
theorem C9_required_identifier (metadata resolvedEnv authParams : GoMap) (podAuth : String) :
    (parseMySQLMetadata resolvedEnv metadata authParams = .error (.msg "no query given") ↔
        metadata.lookup "query" = none) ∧
      (∀ md, parseMySQLMetadata resolvedEnv metadata authParams = .ok md →
        metadata.lookup "query" = some md.query) ∧
      (queueLengthOK metadata = true →
        (metadata.lookup "queueName" = none ∨ metadata.lookup "queueName" = some "") →
        parseAzureQueueMetadata metadata resolvedEnv authParams podAuth =
          .error (.msg "no queueName given")) := by
  refine ⟨?_, ?_, ?_⟩
  · cases hq : metadata.lookup "query" with
    | none => simp [parseMySQLMetadata, hq]
    | some q =>
      simp only [parseMySQLMetadata, hq]
      simp only [reduceCtorEq, iff_false]
      repeat' split
      all_goals simp
  · intro md
    cases hq : metadata.lookup "query" with
    | none => simp [parseMySQLMetadata, hq]
    | some q =>
      simp only [parseMySQLMetadata, hq]
      repeat' split
      all_goals simp
      all_goals (intro h; subst h; rfl)
  · intro hlen hname
    rcases queueLengthOK_cases hlen with h | ⟨v, n, h, ha⟩
    · rcases hname with hn | hn <;> simp [parseAzureQueueMetadata, h, hn]
    · rcases hname with hn | hn <;> simp [parseAzureQueueMetadata, h, ha, hn]

/-- Witness for C9: an empty `queueName` beside a numeric `queueLength`. -/
theorem C9_required_identifier_witness :
    parseAzureQueueMetadata [("queueLength", "7"), ("queueName", "")]
        [("AzureWebJobsStorage", "conn")] [] "" = .error (.msg "no queueName given") :=
  (C9_required_identifier [("queueLength", "7"), ("queueName", "")]
    [("AzureWebJobsStorage", "conn")] [] "").2.2 (by decide) (Or.inr (by decide))

/-! ## C10: the peek bound -/

/-- Inside the `int32` range the conversion `int32(x)` is the identity. -/
theorem toInt32_of_range (x : Int) (hlo : -2 ^ 31 ≤ x) (hhi : x < 2 ^ 31) : toInt32 x = x := by
  unfold toInt32
  have h : (x + 2 ^ 31) % 2 ^ 32 = x + 2 ^ 31 := Int.emod_eq_of_lt (by omega) (by omega)
  omega

/-- C10 (the code at a failing input): `declared = {queueName: "q1", queueLength:
"4294967297"}` is accepted with `targetQueueLength = 4294967297`, and
`GetMetrics("visibleQueueLength")` passes `maxCount = 1` to the peek (the service echoes
the `maxCount` it receives, so the sample shows it); with `queueLength: "-4294967295"` the
`maxCount` passed is `1`, which is greater than the configured `-4294967295`. -/
theorem C10_peek_bound_truncated :
    NewAzureQueueScaler [("AzureWebJobsStorage", "conn")]
        [("queueName", "q1"), ("queueLength", "4294967297")] [] "" =
      .ok { metadata := { targetQueueLength := 4294967297, queueName := "q1",
                          connection := "conn", useAAdPodIdentity := false,
                          accountName := "" }
            podIdentity := "" } ∧
    azureQueueScaler.peekMaxCount
        { metadata := { targetQueueLength := 4294967297, queueName := "q1",
                        connection := "conn", useAAdPodIdentity := false, accountName := "" }
          podIdentity := "" } = 1 ∧
    azureQueueScaler.GetMetrics (echoService 0) 7
        { metadata := { targetQueueLength := 4294967297, queueName := "q1",
                        connection := "conn", useAAdPodIdentity := false, accountName := "" }
          podIdentity := "" } "visibleQueueLength" =
      ([{ MetricName := "visibleQueueLength", Value := 1, Timestamp := 7 }], none) ∧
    NewAzureQueueScaler [("AzureWebJobsStorage", "conn")]
        [("queueName", "q1"), ("queueLength", "-4294967295")] [] "" =
      .ok { metadata := { targetQueueLength := -4294967295, queueName := "q1",
                          connection := "conn", useAAdPodIdentity := false,
                          accountName := "" }
            podIdentity := "" } ∧
    azureQueueScaler.peekMaxCount
        { metadata := { targetQueueLength := -4294967295, queueName := "q1",
                        connection := "conn", useAAdPodIdentity := false, accountName := "" }
          podIdentity := "" } = 1 := by
  decide

/-! ## Auxiliary lemmas: decimal numerals and the queue resolver -/

/-- Reading more digits never decreases the accumulated number. -/
theorem digitsValue_ge (cs : List Char) (n : Nat) : n ≤ digitsValue cs n := by
  induction cs generalizing n with
  | nil => exact Nat.le_refl n
  | cons c cs ih =>
    have := ih (n * 10 + digitVal c)
    simp only [digitsValue]
    omega

/-- The loop of `ParseUint` succeeds exactly on digit strings whose value fits. -/
theorem parseUintLoop_ok_iff (C M : Nat) (hC : M < C * 10) (cs : List Char) (n m : Nat)
    (hn : n ≤ M) :
    parseUintLoop C M cs n = .ok m ↔
      (cs.all isDigit = true ∧ digitsValue cs n = m ∧ m ≤ M) := by
  induction cs generalizing n with
  | nil =>
    simp only [parseUintLoop, List.all_nil, digitsValue, true_and, Except.ok.injEq]
    constructor
    · intro h; subst h; exact ⟨rfl, hn⟩
    · intro h; exact h.1
  | cons c cs ih =>
    simp only [parseUintLoop, List.all_cons, digitsValue, Bool.and_eq_true]
    by_cases hd : isDigit c = true
    · simp only [hd, if_true, true_and]
      by_cases hcut : C ≤ n
      · simp only [hcut, if_true]
        constructor
        · intro h; exact absurd h (by simp)
        · rintro ⟨_, hv, hm⟩
          have := digitsValue_ge cs (n * 10 + digitVal c)
          omega
      · simp only [hcut, if_false]
        by_cases hmax : M < n * 10 + digitVal c
        · simp only [hmax, if_true]
          constructor
          · intro h; exact absurd h (by simp)
          · rintro ⟨_, hv, hm⟩
            have := digitsValue_ge cs (n * 10 + digitVal c)
            omega
        · simp only [hmax, if_false]
          exact ih (n * 10 + digitVal c) (by omega)
    · simp only [hd, if_false, false_and]
      constructor
      · intro h; exact absurd h (by simp)
      · intro h; exact absurd h (by simp)

/-- The call `ParseUint(s, 10, 0)` succeeds exactly on non-empty digit strings below `2^64`. -/
theorem ParseUint_ok_iff (s : List Char) (m : Nat) :
    ParseUint s = .ok m ↔
      (s ≠ [] ∧ s.all isDigit = true ∧ digitsValue s 0 = m ∧ m ≤ 2 ^ 64 - 1) := by
  cases s with
  | nil => simp [ParseUint]
  | cons c cs =>
    simp only [ParseUint, ne_eq, reduceCtorEq, not_false_eq_true, true_and]
    exact parseUintLoop_ok_iff _ _ (by simp [intSize]) (c :: cs) 0 m (by simp)

/-- The call `ParseInt(s, 10, 0)` on a non-empty string, in terms of `ParseUint`. -/
theorem ParseInt_ok_iff (c : Char) (cs : List Char) (n : Int) :
    ParseInt (c :: cs) = .ok n ↔
      ∃ un : Nat, ParseUint (if c = '+' ∨ c = '-' then cs else c :: cs) = .ok un ∧
        n = (if c = '-' then -(un : Int) else (un : Int)) ∧
        -(2 : Int) ^ 63 ≤ n ∧ n < 2 ^ 63 := by
  simp only [ParseInt]
  cases hu : ParseUint (if c = '+' ∨ c = '-' then cs else c :: cs) with
  | error k => simp
  | ok un =>
    simp only [Except.ok.injEq, exists_eq_left', intSize]
    by_cases hneg : c = '-'
    · simp only [hneg, decide_True, if_true, Bool.true_eq_false, false_and, if_false,
        true_and]
      by_cases hr : 2 ^ (64 - 1) < un
      · simp only [hr, if_true, reduceCtorEq, false_iff, not_and, not_lt]
        intro h1 h2
        subst h1
        omega
      · simp only [hr, if_false, Except.ok.injEq]
        constructor
        · intro h
          subst h
          refine ⟨rfl, ?_, ?_⟩ <;> omega
        · intro h
          exact h.1.symm
    · simp only [hneg, decide_False, if_false, true_and, Bool.false_eq_true, false_and]
      by_cases hr : 2 ^ (64 - 1) ≤ un
      · simp only [hr, if_true, reduceCtorEq, false_iff, not_and, not_lt]
        intro h1 h2
        subst h1
        omega
      · simp only [hr, if_false, Except.ok.injEq]
        constructor
        · intro h
          subst h
          refine ⟨rfl, ?_, ?_⟩ <;> omega
        · intro h
          exact h.1.symm

/-- The call `Atoi(s)` returns `n` exactly when `s` is a decimal numeral denoting `n` and
`n` lies in the range of `int`. -/
theorem Atoi_ok_iff (s : String) (n : Int) :
    Atoi s = .ok n ↔ (decimalValue s = some n ∧ -(2 : Int) ^ 63 ≤ n ∧ n < 2 ^ 63) := by
  unfold Atoi decimalValue
  cases hs : s.toList with
  | nil => simp [ParseInt]
  | cons c cs =>
    have hP : (match ParseInt (c :: cs) with
        | .ok n => (Except.ok n : Except NumError Int)
        | .error k => .error { Func := "Atoi", Num := s, Err := k }) = .ok n ↔
        ParseInt (c :: cs) = .ok n := by
      cases ParseInt (c :: cs) <;> simp
    rw [hP, ParseInt_ok_iff]
    simp only [ParseUint_ok_iff]
    generalize (if c = '+' ∨ c = '-' then cs else c :: cs) = body
    constructor
    · rintro ⟨un, ⟨hne, hall, hv, _⟩, hn, hlo, hhi⟩
      refine ⟨?_, hlo, hhi⟩
      simp only [hne, hall, ne_eq, not_false_eq_true, and_self, if_true, hv, Option.some.injEq]
      exact hn.symm
    · rintro ⟨hd, hlo, hhi⟩
      by_cases hb : body ≠ [] ∧ body.all isDigit = true
      · simp only [hb, ne_eq, not_false_eq_true, and_self, if_true, Option.some.injEq] at hd
        refine ⟨digitsValue body 0, ⟨hb.1, hb.2, rfl, ?_⟩, hd.symm, hlo, hhi⟩
        by_cases hneg : c = '-'
        · simp only [hneg, if_true] at hd
          omega
        · simp only [hneg, if_false] at hd
          omega
      · simp only [hb, if_false] at hd
        exact absurd hd (by simp)

/-- What a successful `parseAzureQueueMetadata` implies about its inputs and its result. -/
theorem parseAzure_ok_inv {metadata resolvedEnv authParams : GoMap} {podAuth mode : String}
    {md : azureQueueMetadata}
    (h : parseAzureQueueMetadata metadata resolvedEnv authParams podAuth = .ok (md, mode)) :
    mode = legacyPodAuth metadata podAuth ∧
      ((metadata.lookup queueLengthMetricName = none ∧
          md.targetQueueLength = defaultTargetQueueLength) ∨
        ∃ v, metadata.lookup queueLengthMetricName = some v ∧
          Atoi v = .ok md.targetQueueLength) ∧
      (metadata.lookup "queueName" = some md.queueName ∧ md.queueName ≠ "") ∧
      md.useAAdPodIdentity = false ∧
      (((mode = "" ∨ mode = "none") ∧ md.accountName = "" ∧
          ((index authParams "connection" ≠ "" ∧
              md.connection = index authParams "connection") ∨
            (index authParams "connection" = "" ∧
              resolvedEnv.lookup (connectionSettingName metadata) = some md.connection))) ∨
        (mode = "azure" ∧ md.connection = "" ∧
          metadata.lookup "accountName" = some md.accountName ∧ md.accountName ≠ "")) := by
  have hmode := parseAzure_mode h
  subst hmode
  refine ⟨rfl, ?_⟩
  -- the threshold
  have hlen : ∃ t : Int,
      ((metadata.lookup queueLengthMetricName = none ∧ t = defaultTargetQueueLength) ∨
        ∃ v, metadata.lookup queueLengthMetricName = some v ∧ Atoi v = .ok t) ∧
      (match metadata.lookup queueLengthMetricName with
        | some val =>
          match Atoi val with
          | .error err =>
            (.error (.wrap ("Error parsing azure queue metadata " ++ queueLengthMetricName ++ ": ")
              (.num err)) : Except GoError azureQueueMetadata)
          | .ok queueLength =>
            .ok { targetQueueLength := queueLength, queueName := "", connection := "",
                  useAAdPodIdentity := false, accountName := "" }
        | none =>
          .ok { targetQueueLength := defaultTargetQueueLength, queueName := "",
                connection := "", useAAdPodIdentity := false, accountName := "" }) =
        .ok { targetQueueLength := t, queueName := "", connection := "",
              useAAdPodIdentity := false, accountName := "" } := by
    cases hl : metadata.lookup queueLengthMetricName with
    | none => exact ⟨defaultTargetQueueLength, Or.inl ⟨rfl, rfl⟩, rfl⟩
    | some v =>
      cases ha : Atoi v with
      | error e => simp [parseAzureQueueMetadata, hl, ha] at h
      | ok n => exact ⟨n, Or.inr ⟨v, rfl, ha⟩, by simp [ha]⟩
  obtain ⟨t, ht, hparsed⟩ := hlen
  simp only [parseAzureQueueMetadata, hparsed] at h
  cases hq : metadata.lookup "queueName" with
  | none => simp [hq] at h
  | some q =>
    by_cases hqe : q = ""
    · simp [hq, hqe] at h
    · simp only [hq, hqe, if_false] at h
      by_cases hm : legacyPodAuth metadata podAuth = "" ∨ legacyPodAuth metadata podAuth = "none"
      · simp only [hm, if_true] at h
        by_cases hc : index authParams "connection" = ""
        · simp only [hc, ne_eq, not_true_eq_false, if_false] at h
          change (match resolvedEnv.lookup (connectionSettingName metadata) with
            | some val => _
            | none => _) = _ at h
          cases hr : resolvedEnv.lookup (connectionSettingName metadata) with
          | none => simp [hr] at h
          | some val =>
            simp only [hr, Except.ok.injEq, Prod.mk.injEq, and_true] at h
            subst h
            exact ⟨ht, ⟨rfl, hqe⟩, rfl, Or.inl ⟨hm, rfl, Or.inr ⟨hc, rfl⟩⟩⟩
        · simp only [hc, ne_eq, not_false_eq_true, if_true, Except.ok.injEq, Prod.mk.injEq,
            and_true] at h
          subst h
          exact ⟨ht, ⟨rfl, hqe⟩, rfl, Or.inl ⟨hm, rfl, Or.inl ⟨hc, rfl⟩⟩⟩
      · simp only [hm, if_false] at h
        by_cases hz : legacyPodAuth metadata podAuth = "azure"
        · simp only [hz, if_true] at h
          cases ha : metadata.lookup "accountName" with
          | none => simp [ha] at h
          | some a =>
            by_cases hae : a = ""
            · simp [ha, hae] at h
            · simp only [ha, hae, if_false, Except.ok.injEq, Prod.mk.injEq, and_true] at h
              subst h
              exact ⟨ht, ⟨rfl, hqe⟩, rfl, Or.inr ⟨hz, rfl, rfl, hae⟩⟩
        · simp [hz] at h

/-- A non-empty requested mode is returned unchanged by `legacyPodAuth`. -/
theorem legacyPodAuth_of_ne_empty (metadata : GoMap) {podAuth : String} (h : podAuth ≠ "") :
    legacyPodAuth metadata podAuth = podAuth := by
  unfold legacyPodAuth
  split <;> simp [h]

/-- What a successful `parseMySQLMetadata` implies about `query` and `queryValue`. -/
theorem parseMySQL_ok_inv {resolvedEnv metadata authParams : GoMap} {md : mySQLMetadata}
    (h : parseMySQLMetadata resolvedEnv metadata authParams = .ok md) :
    metadata.lookup "query" = some md.query ∧
      ∃ v, metadata.lookup "queryValue" = some v ∧ Atoi v = .ok md.queryValue := by
  cases hq : metadata.lookup "query" with
  | none => simp [parseMySQLMetadata, hq] at h
  | some q =>
    cases hv : metadata.lookup "queryValue" with
    | none => simp [parseMySQLMetadata, hq, hv] at h
    | some v =>
      cases ha : Atoi v with
      | error e => simp [parseMySQLMetadata, hq, hv, ha] at h
      | ok n =>
        simp only [parseMySQLMetadata, hq, hv, ha] at h
        refine ⟨?_, v, rfl, ?_⟩
        · repeat' split at h
          all_goals first
            | (simp only [Except.ok.injEq] at h
               subst h
               rfl)
            | simp at h
        · repeat' split at h
          all_goals first
            | (simp only [Except.ok.injEq] at h
               subst h
               exact ha)
            | simp at h

/-! ## C11: threshold resolution -/

/-- C11 (as stated, refuted): `declared["queryValue"] = "9223372036854775808"` is a decimal
integer, denoting `2^63`, yet `parseMySQLMetadata` does not store it: it fails with the
parsing error, the value being out of the range of `int`. -/
theorem C11_sql_out_of_range_threshold :
    decimalValue "9223372036854775808" = some 9223372036854775808 ∧
      parseMySQLMetadata []
          [("query", "SELECT 1"), ("queryValue", "9223372036854775808"), ("host", "db"),
            ("port", "3306"), ("username", "root"), ("dbName", "app")] [] =
        .error (.wrap "queryValue parsing error "
          (.num { Func := "Atoi", Num := "9223372036854775808", Err := .ErrRange })) := by
  decide

/-- C11 (amended): (queue) on every input on which `parseAzureQueueMetadata` succeeds,
`targetQueueLength` is 5 when `declared` has no `queueLength` key and otherwise the integer
that `declared["queueLength"]` denotes as a decimal numeral; and whenever
`declared["queueLength"]` is present and is not a decimal numeral denoting an integer in
the range of `int`, it fails with the parsing error, whatever the other fields. (SQL) given
a present `query`, `parseMySQLMetadata` fails with `no queryValue given` when `declared`
has no `queryValue` key, fails with the parsing error when the value is not a decimal
numeral denoting an integer in the range of `int`, and otherwise never fails with the
parsing error and stores exactly the denoted integer as `queryValue` whenever it
succeeds. -/
theorem C11_threshold_resolution (metadata resolvedEnv authParams : GoMap) (podAuth : String) :
    (∀ md mode, parseAzureQueueMetadata metadata resolvedEnv authParams podAuth =
          .ok (md, mode) →
        (metadata.lookup "queueLength" = none → md.targetQueueLength = 5) ∧
        (∀ v, metadata.lookup "queueLength" = some v →
          decimalValue v = some md.targetQueueLength)) ∧
      (∀ v, metadata.lookup "queueLength" = some v →
        (∀ n, decimalValue v = some n → ¬ (-(2 : Int) ^ 63 ≤ n ∧ n < 2 ^ 63)) →
        ∃ ne, parseAzureQueueMetadata metadata resolvedEnv authParams podAuth =
          .error (.wrap "Error parsing azure queue metadata queueLength: " (.num ne))) ∧
      ((∃ q, metadata.lookup "query" = some q) →
        (metadata.lookup "queryValue" = none →
          parseMySQLMetadata resolvedEnv metadata authParams =
            .error (.msg "no queryValue given")) ∧
        (∀ v, metadata.lookup "queryValue" = some v →
          (∀ n, decimalValue v = some n → ¬ (-(2 : Int) ^ 63 ≤ n ∧ n < 2 ^ 63)) →
          ∃ ne, parseMySQLMetadata resolvedEnv metadata authParams =
            .error (.wrap "queryValue parsing error " (.num ne))) ∧
        (∀ v n, metadata.lookup "queryValue" = some v → decimalValue v = some n →
          -(2 : Int) ^ 63 ≤ n → n < 2 ^ 63 →
          (∀ ne, parseMySQLMetadata resolvedEnv metadata authParams ≠
            .error (.wrap "queryValue parsing error " (.num ne))) ∧
          (∀ md, parseMySQLMetadata resolvedEnv metadata authParams = .ok md →
            md.queryValue = n))) := by
  have hfail : ∀ v, (∀ n, decimalValue v = some n → ¬ (-(2 : Int) ^ 63 ≤ n ∧ n < 2 ^ 63)) →
      ∃ ne, Atoi v = .error ne := by
    intro v hv
    cases ha : Atoi v with
    | error ne => exact ⟨ne, rfl⟩
    | ok n =>
      have := (Atoi_ok_iff v n).1 ha
      exact absurd this.2 (hv n this.1)
  refine ⟨?_, ?_, ?_⟩
  · intro md mode h
    obtain ⟨_, ht, _⟩ := parseAzure_ok_inv h
    have hname : queueLengthMetricName = "queueLength" := rfl
    rw [hname] at ht
    constructor
    · intro hnone
      rcases ht with ⟨_, h5⟩ | ⟨v, hv, _⟩
      · exact h5
      · rw [hnone] at hv
        exact absurd hv (by simp)
    · intro v hv
      rcases ht with ⟨hnone, _⟩ | ⟨w, hw, ha⟩
      · rw [hnone] at hv
        exact absurd hv (by simp)
      · rw [hv] at hw
        cases hw
        exact ((Atoi_ok_iff v _).1 ha).1
  · intro v hv hbad
    obtain ⟨ne, hne⟩ := hfail v hbad
    exact ⟨ne, by simp [parseAzureQueueMetadata, queueLengthMetricName, hv, hne]⟩
  · rintro ⟨q, hq⟩
    refine ⟨?_, ?_, ?_⟩
    · intro hnone
      simp [parseMySQLMetadata, hq, hnone]
    · intro v hv hbad
      obtain ⟨ne, hne⟩ := hfail v hbad
      exact ⟨ne, by simp [parseMySQLMetadata, hq, hv, hne]⟩
    · intro v n hv hd hlo hhi
      have ha : Atoi v = .ok n := (Atoi_ok_iff v n).2 ⟨hd, hlo, hhi⟩
      constructor
      · intro ne
        simp only [parseMySQLMetadata, hq, hv, ha]
        repeat' split
        all_goals simp
      · intro md hmd
        obtain ⟨_, w, hw, haw⟩ := parseMySQL_ok_inv hmd
        rw [hv] at hw
        cases hw
        rw [ha] at haw
        cases haw
        rfl

/-- Witness for C11: `queueLength: "7"` is stored as 7, and `queryValue: "ten"` is
rejected with the parsing error. -/
theorem C11_threshold_resolution_witness :
    decimalValue "7" = some (7 : Int) ∧
      ∃ ne, parseMySQLMetadata [("AzureWebJobsStorage", "conn")]
          [("queueName", "q1"), ("queueLength", "7"), ("query", "SELECT 1"),
            ("queryValue", "ten")] [] =
        .error (.wrap "queryValue parsing error " (.num ne)) :=
  ⟨((C11_threshold_resolution
        [("queueName", "q1"), ("queueLength", "7"), ("query", "SELECT 1"),
          ("queryValue", "ten")]
        [("AzureWebJobsStorage", "conn")] [] "").1
      { targetQueueLength := 7, queueName := "q1", connection := "conn",
        useAAdPodIdentity := false, accountName := "" } "" (by decide)).2 "7" (by decide),
   ((C11_threshold_resolution
        [("queueName", "q1"), ("queueLength", "7"), ("query", "SELECT 1"),
          ("queryValue", "ten")]
        [("AzureWebJobsStorage", "conn")] [] "").2.2 ⟨"SELECT 1", by decide⟩).2.1 "ten"
      (by decide) (fun n hn => by
        have hnone : decimalValue "ten" = none := by decide
        rw [hnone] at hn
        exact absurd hn (by simp))⟩

/-! ## C12: unsupported identity modes -/

/-- C12: for every requested identity mode `m` other than `""`, `"none"` and `"azure"`, and
every `declared`, `resolvedEnv` and `authParams`, `parseAzureQueueMetadata` returns an error
(and so no metadata); when `queueLength` is absent or numeric and `queueName` is non-empty
that error is `pod identity m not supported for azure storage queues`. -/
theorem C12_unsupported_identity_mode (metadata resolvedEnv authParams : GoMap) (m : String)
    (h1 : m ≠ "") (h2 : m ≠ "none") (h3 : m ≠ "azure") :
    (∃ e, parseAzureQueueMetadata metadata resolvedEnv authParams m = .error e) ∧
      (queueLengthOK metadata = true →
        (∃ q, metadata.lookup "queueName" = some q ∧ q ≠ "") →
        parseAzureQueueMetadata metadata resolvedEnv authParams m =
          .error (.msg ("pod identity " ++ m ++ " not supported for azure storage queues"))) := by
  have hm : legacyPodAuth metadata m = m := legacyPodAuth_of_ne_empty metadata h1
  constructor
  · cases hres : parseAzureQueueMetadata metadata resolvedEnv authParams m with
    | error e => exact ⟨e, rfl⟩
    | ok r =>
      obtain ⟨md, mode⟩ := r
      obtain ⟨hmode, _, _, _, hpath⟩ := parseAzure_ok_inv hres
      rw [hm] at hmode
      subst hmode
      rcases hpath with ⟨h | h, _⟩ | ⟨h, _⟩
      · exact absurd h h1
      · exact absurd h h2
      · exact absurd h h3
  · rintro hlen ⟨q, hq, hqne⟩
    rcases queueLengthOK_cases hlen with h | ⟨v, n, h, ha⟩
    · simp [parseAzureQueueMetadata, h, hq, hqne, hm, h1, h2, h3]
    · simp [parseAzureQueueMetadata, h, ha, hq, hqne, hm, h1, h2, h3]

/-- Witness for C12: the mode `"gcp"`. -/
theorem C12_unsupported_identity_mode_witness :
    parseAzureQueueMetadata [("queueName", "q1"), ("accountName", "acct")]
        [("AzureWebJobsStorage", "conn")] [("connection", "secret")] "gcp" =
      .error (.msg ("pod identity " ++ "gcp" ++ " not supported for azure storage queues")) :=
  (C12_unsupported_identity_mode [("queueName", "q1"), ("accountName", "acct")]
    [("AzureWebJobsStorage", "conn")] [("connection", "secret")] "gcp" (by decide) (by decide)
    (by decide)).2 (by decide) ⟨"q1", by decide, by decide⟩

/-! ## C13: `GetMetrics` returns one sample -/

/-- C13: for both scalers, when the fetch for a recognised metric name yields the integer
`v`, `GetMetrics` returns exactly one sample of value `v` and no error (queue: named with
the requested name; SQL: named `MySQLQueryValue`); when the fetch yields an error,
`GetMetrics` returns an error together with the empty list. A SQL value of 42 gives one
sample of value 42, and a queue visible count of 0 gives one sample of value 0. -/
theorem C13_getMetrics_one_sample (svc : AzureQueueService) (now : Nat)
    (qs : azureQueueScaler) (ms : mySQLScaler) (name : String) :
    (∀ v : Int,
        GetAzureQueueLength svc qs.podIdentity qs.metadata.connection qs.metadata.queueName
            qs.metadata.accountName = (v, none) →
          qs.GetMetrics svc now "queueLength" =
            ([{ MetricName := "queueLength", Value := v, Timestamp := now }], none)) ∧
      (∀ v : Int,
        GetAzureVisibleQueueLength svc qs.podIdentity qs.metadata.connection
            qs.metadata.queueName qs.metadata.accountName qs.peekMaxCount = (v, none) →
          qs.GetMetrics svc now "visibleQueueLength" =
            ([{ MetricName := "visibleQueueLength", Value := v, Timestamp := now }], none)) ∧
      (∀ (x : Int) (e : GoError),
        GetAzureQueueLength svc qs.podIdentity qs.metadata.connection qs.metadata.queueName
            qs.metadata.accountName = (x, some e) →
          qs.GetMetrics svc now "queueLength" = ([], some e)) ∧
      (∀ (x : Int) (e : GoError),
        GetAzureVisibleQueueLength svc qs.podIdentity qs.metadata.connection
            qs.metadata.queueName qs.metadata.accountName qs.peekMaxCount = (x, some e) →
          qs.GetMetrics svc now "visibleQueueLength" = ([], some e)) ∧
      (∀ v : Int, ms.getQueryResult = (v, none) →
          ms.GetMetrics now name =
            ([{ MetricName := "MySQLQueryValue", Value := v, Timestamp := now }], none)) ∧
      (∀ (x : Int) (e : GoError), ms.getQueryResult = (x, some e) →
          ms.GetMetrics now name = ([], some (.wrap "error inspecting MySQL: " e))) ∧
      (sampleSQLScaler (.ok 42)).GetMetrics now "MySQLQueryValue" =
        ([{ MetricName := "MySQLQueryValue", Value := 42, Timestamp := now }], none) ∧
      sampleQueueScaler.GetMetrics (fixedService 0 0) now "visibleQueueLength" =
        ([{ MetricName := "visibleQueueLength", Value := 0, Timestamp := now }], none) := by
  have hne : ¬ ("visibleQueueLength" = "queueLength") := by decide
  refine ⟨fun v h => ?_, fun v h => ?_, fun x e h => ?_, fun x e h => ?_, fun v h => ?_,
    fun x e h => ?_, ?_, ?_⟩
  · simp [azureQueueScaler.GetMetrics, queueLengthMetricName, h]
  · simp [azureQueueScaler.GetMetrics, queueLengthMetricName, visibleQueueLengthMetricName,
      hne, h]
  · simp [azureQueueScaler.GetMetrics, queueLengthMetricName, h]
  · simp [azureQueueScaler.GetMetrics, queueLengthMetricName, visibleQueueLengthMetricName,
      hne, h]
  · simp [mySQLScaler.GetMetrics, mySQLMetricName, h]
  · simp [mySQLScaler.GetMetrics, h]
  · rfl
  · rfl

/-- Witness for C13: a queue reporting 3 messages, and a failing MySQL fetch. -/
theorem C13_getMetrics_one_sample_witness :
    sampleQueueScaler.GetMetrics (fixedService 3 0) 7 "queueLength" =
        ([{ MetricName := "queueLength", Value := 3, Timestamp := 7 }], none) ∧
      (sampleSQLScaler (.error (.msg "connection refused"))).GetMetrics 7 "MySQLQueryValue" =
        ([], some (.wrap "error inspecting MySQL: " (.msg "connection refused"))) :=
  ⟨(C13_getMetrics_one_sample (fixedService 3 0) 7 sampleQueueScaler
      (sampleSQLScaler (.ok 42)) "MySQLQueryValue").1 3 (by decide),
   (C13_getMetrics_one_sample (fixedService 3 0) 7 sampleQueueScaler
      (sampleSQLScaler (.error (.msg "connection refused"))) "MySQLQueryValue").2.2.2.2.2.1 0
      (.msg "connection refused") (by decide)⟩

/-! ## C14: metric descriptors -/

/-- C14: for every queue scaler `GetMetricSpecForScaling` is the one descriptor of type
`External`, name `queueLength` and target `targetQueueLength`, and
`GetMetricSpecForScalingJob` the one descriptor of type `External`, name
`visibleQueueLength` and the same target; for every MySQL scaler `GetMetricSpecForScaling`
is the one descriptor of type `External`, name `MySQLQueryValue` and target `queryValue`,
and `GetMetricSpecForScalingJob` is empty. Every advertised name is recognised by the same
scaler's `GetMetrics`: its error, if any, is the error of the fetch for that name. -/
theorem C14_metric_specs (svc : AzureQueueService) (now : Nat) (qs : azureQueueScaler)
    (ms : mySQLScaler) :
    qs.GetMetricSpecForScaling =
        [{ Type_ := "External",
           External := some { MetricName := "queueLength", TargetValue := none,
                              TargetAverageValue := some qs.metadata.targetQueueLength } }] ∧
      qs.GetMetricSpecForScalingJob =
        [{ Type_ := "External",
           External := some { MetricName := "visibleQueueLength", TargetValue := none,
                              TargetAverageValue := some qs.metadata.targetQueueLength } }] ∧
      ms.GetMetricSpecForScaling =
        [{ Type_ := "External",
           External := some { MetricName := "MySQLQueryValue", TargetValue := none,
                              TargetAverageValue := some ms.metadata.queryValue } }] ∧
      ms.GetMetricSpecForScalingJob = [] ∧
      (∀ spec ∈ qs.GetMetricSpecForScaling ++ qs.GetMetricSpecForScalingJob,
        ∀ ext, spec.External = some ext →
          (qs.GetMetrics svc now ext.MetricName).2 =
              (GetAzureQueueLength svc qs.podIdentity qs.metadata.connection
                qs.metadata.queueName qs.metadata.accountName).2 ∨
            (qs.GetMetrics svc now ext.MetricName).2 =
              (GetAzureVisibleQueueLength svc qs.podIdentity qs.metadata.connection
                qs.metadata.queueName qs.metadata.accountName qs.peekMaxCount).2) ∧
      (∀ spec ∈ ms.GetMetricSpecForScaling ++ ms.GetMetricSpecForScalingJob,
        ∀ ext, spec.External = some ext →
          ((ms.GetMetrics now ext.MetricName).2 = none ↔ ms.getQueryResult.2 = none)) := by
  refine ⟨rfl, rfl, rfl, rfl, ?_, ?_⟩
  · intro spec hspec ext hext
    simp only [azureQueueScaler.GetMetricSpecForScaling,
      azureQueueScaler.GetMetricSpecForScalingJob, List.cons_append, List.nil_append,
      List.mem_cons, List.mem_singleton, List.not_mem_nil, or_false] at hspec
    rcases hspec with rfl | rfl
    · simp only [Option.some.injEq] at hext
      subst hext
      left
      simp only [azureQueueScaler.GetMetrics, if_true]
      rcases GetAzureQueueLength svc qs.podIdentity qs.metadata.connection
        qs.metadata.queueName qs.metadata.accountName with ⟨v, _ | e⟩ <;> rfl
    · simp only [Option.some.injEq] at hext
      subst hext
      right
      have hne : ¬ (visibleQueueLengthMetricName = queueLengthMetricName) := by decide
      simp only [azureQueueScaler.GetMetrics, hne, if_false, if_true]
      rcases GetAzureVisibleQueueLength svc qs.podIdentity qs.metadata.connection
        qs.metadata.queueName qs.metadata.accountName qs.peekMaxCount with ⟨v, _ | e⟩ <;> rfl
  · intro spec _ ext _
    unfold mySQLScaler.GetMetrics
    rcases hr : ms.getQueryResult with ⟨v, _ | e⟩ <;> simp

/-- Witness for C14: the name advertised for scaling jobs, `visibleQueueLength`, on a
queue with no visible message. -/
theorem C14_metric_specs_witness :
    (sampleQueueScaler.GetMetrics (fixedService 3 0) 7 "visibleQueueLength").2 =
        (GetAzureQueueLength (fixedService 3 0) sampleQueueScaler.podIdentity
          sampleQueueScaler.metadata.connection sampleQueueScaler.metadata.queueName
          sampleQueueScaler.metadata.accountName).2 ∨
      (sampleQueueScaler.GetMetrics (fixedService 3 0) 7 "visibleQueueLength").2 =
        (GetAzureVisibleQueueLength (fixedService 3 0) sampleQueueScaler.podIdentity
          sampleQueueScaler.metadata.connection sampleQueueScaler.metadata.queueName
          sampleQueueScaler.metadata.accountName sampleQueueScaler.peekMaxCount).2 :=
  (C14_metric_specs (fixedService 3 0) 7 sampleQueueScaler (sampleSQLScaler (.ok 42))).2.2.2.2.1
    { Type_ := "External",
      External := some { MetricName := "visibleQueueLength", TargetValue := none,
                         TargetAverageValue := some 5 } }
    (by decide)
    { MetricName := "visibleQueueLength", TargetValue := none, TargetAverageValue := some 5 }
    rfl

/-! ## C15: the sign of the target length -/

/-- C15 (as stated, refuted): `declared = {queueName: "q1", queueLength: "-1"}` is accepted
and the resolved `targetQueueLength` is `-1`, which is not `≥ 0`. -/
theorem C15_negative_target_accepted :
    parseAzureQueueMetadata [("queueName", "q1"), ("queueLength", "-1")]
        [("AzureWebJobsStorage", "conn")] [] "" =
      .ok ({ targetQueueLength := -1, queueName := "q1", connection := "conn",
             useAAdPodIdentity := false, accountName := "" }, "") ∧
      ¬ ((0 : Int) ≤ -1) := by
  decide

/-- C15 (amended): on every input on which `parseAzureQueueMetadata` succeeds,
`targetQueueLength` lies in the range of `int`, `-2^63 ≤ targetQueueLength < 2^63`, and it
is `≥ 0` exactly when `declared["queueLength"]` is absent or denotes a non-negative
integer: a negative declared value is stored as it is. -/
theorem C15_target_length_range (metadata resolvedEnv authParams : GoMap)
    (podAuth mode : String) (md : azureQueueMetadata)
    (h : parseAzureQueueMetadata metadata resolvedEnv authParams podAuth = .ok (md, mode)) :
    (-(2 : Int) ^ 63 ≤ md.targetQueueLength ∧ md.targetQueueLength < 2 ^ 63) ∧
      (0 ≤ md.targetQueueLength ↔
        (metadata.lookup "queueLength" = none ∨
          ∃ v n, metadata.lookup "queueLength" = some v ∧ decimalValue v = some n ∧
            0 ≤ n)) := by
  obtain ⟨_, ht, _⟩ := parseAzure_ok_inv h
  have hname : queueLengthMetricName = "queueLength" := rfl
  rw [hname] at ht
  rcases ht with ⟨hnone, h5⟩ | ⟨v, hv, ha⟩
  · rw [h5]
    refine ⟨by decide, ?_⟩
    constructor
    · intro _
      exact Or.inl hnone
    · intro _
      decide
  · obtain ⟨hd, hlo, hhi⟩ := (Atoi_ok_iff v _).1 ha
    refine ⟨⟨hlo, hhi⟩, ?_⟩
    constructor
    · intro h0
      exact Or.inr ⟨v, _, hv, hd, h0⟩
    · rintro (hnone | ⟨w, n, hw, hdn, hn⟩)
      · rw [hnone] at hv
        exact absurd hv (by simp)
      · rw [hv] at hw
        cases hw
        rw [hd] at hdn
        cases hdn
        exact hn

/-- Witness for C15: the default target 5. -/
theorem C15_target_length_range_witness :
    (-(2 : Int) ^ 63 ≤ 5 ∧ (5 : Int) < 2 ^ 63) ∧
      ((0 : Int) ≤ 5 ↔
        (List.lookup "queueLength" [("queueName", "q1")] = none ∨
          ∃ v n, List.lookup "queueLength" [("queueName", "q1")] = some v ∧
            decimalValue v = some n ∧ (0 : Int) ≤ n)) :=
  C15_target_length_range [("queueName", "q1")] [("AzureWebJobsStorage", "conn")] [] "" ""
    { targetQueueLength := 5, queueName := "q1", connection := "conn",
      useAAdPodIdentity := false, accountName := "" } (by decide)

/-! ## Auxiliary lemmas: the SQL connection branches -/

/-- With a `connectionString` key in `authParams` the resolver succeeds, storing that value
and no discrete field. -/
theorem parseMySQL_auth_branch {resolvedEnv metadata authParams : GoMap} {q v c : String}
    {n : Int} (hq : metadata.lookup "query" = some q)
    (hv : metadata.lookup "queryValue" = some v) (ha : Atoi v = .ok n)
    (hc : authParams.lookup "connectionString" = some c) :
    parseMySQLMetadata resolvedEnv metadata authParams =
      .ok { connectionString := c, username := "", password := "", host := "", port := "",
            dbName := "", query := q, queryValue := n } := by
  simp [parseMySQLMetadata, hq, hv, ha, hc]

/-- With no `connectionString` key in `authParams` and one in `declared`, the resolver
succeeds, storing the value `resolvedEnv` holds for the declared name, or the empty string
when it holds none, and no discrete field. -/
theorem parseMySQL_env_branch {resolvedEnv metadata authParams : GoMap} {q v k : String}
    {n : Int} (hq : metadata.lookup "query" = some q)
    (hv : metadata.lookup "queryValue" = some v) (ha : Atoi v = .ok n)
    (hc : authParams.lookup "connectionString" = none)
    (hk : metadata.lookup "connectionString" = some k) :
    parseMySQLMetadata resolvedEnv metadata authParams =
      .ok { connectionString := index resolvedEnv k, username := "", password := "",
            host := "", port := "", dbName := "", query := q, queryValue := n } := by
  cases hr : resolvedEnv.lookup k <;> simp [parseMySQLMetadata, hq, hv, ha, hc, hk, hr, index]

/-- With no `connectionString` key in either map, a successful resolver took the four
discrete fields from `declared` and resolved the password from `authParams`, then from
`resolvedEnv` under the declared name, then to the empty default. -/
theorem parseMySQL_discrete_inv {resolvedEnv metadata authParams : GoMap} {md : mySQLMetadata}
    (h : parseMySQLMetadata resolvedEnv metadata authParams = .ok md)
    (hc : authParams.lookup "connectionString" = none)
    (hk : metadata.lookup "connectionString" = none) :
    md.connectionString = "" ∧ metadata.lookup "host" = some md.host ∧
      metadata.lookup "port" = some md.port ∧
      metadata.lookup "username" = some md.username ∧
      metadata.lookup "dbName" = some md.dbName ∧
      md.password =
        (match authParams.lookup "password" with
          | some p => p
          | none =>
            match metadata.lookup "password" with
            | some key =>
              if key = "" then "" else
                match resolvedEnv.lookup key with
                | some pass => pass
                | none => ""
            | none => "") := by
  obtain ⟨hq, v, hv, ha⟩ := parseMySQL_ok_inv h
  simp only [parseMySQLMetadata, hq, hv, ha, hc, hk] at h
  cases hh : metadata.lookup "host" with
  | none => simp [hh] at h
  | some host =>
    cases hp : metadata.lookup "port" with
    | none => simp [hh, hp] at h
    | some port =>
      cases hu : metadata.lookup "username" with
      | none => simp [hh, hp, hu] at h
      | some username =>
        cases hd : metadata.lookup "dbName" with
        | none => simp [hh, hp, hu, hd] at h
        | some dbName =>
          simp only [hh, hp, hu, hd] at h
          cases hap : authParams.lookup "password" with
          | some p =>
            simp only [hap, Except.ok.injEq] at h
            rw [← h]
            simp
          | none =>
            cases hmp : metadata.lookup "password" with
            | none =>
              simp only [hap, hmp, Except.ok.injEq] at h
              rw [← h]
              simp [defaultMySQLPassword]
            | some key =>
              by_cases hke : key = ""
              · simp only [hap, hmp, hke, ne_eq, not_true_eq_false, if_false,
                  Except.ok.injEq] at h
                rw [← h]
                simp [defaultMySQLPassword, hke]
              · cases hr : resolvedEnv.lookup key with
                | none =>
                  simp only [hap, hmp, hke, ne_eq, not_false_eq_true, if_true, hr,
                    Except.ok.injEq] at h
                  rw [← h]
                  simp [defaultMySQLPassword, hke, hr]
                | some pass =>
                  simp only [hap, hmp, hke, ne_eq, not_false_eq_true, if_true, hr,
                    Except.ok.injEq] at h
                  rw [← h]
                  simp [hke, hr]

/-! ## C16: an empty `connectionString` auth parameter -/

/-- C16 (as stated, refuted): `authParams = {connectionString: ""}` with the four discrete
fields declared. The resolver stores the empty auth parameter and skips the discrete
fields, whereas with the key removed from `authParams` it takes the discrete fields: the
two results differ. -/
theorem C16_sql_empty_auth_param_used :
    removeKey [("connectionString", "")] "connectionString" = [] ∧
      parseMySQLMetadata []
          [("query", "SELECT 1"), ("queryValue", "10"), ("host", "db"), ("port", "3306"),
            ("username", "root"), ("dbName", "app")] [("connectionString", "")] =
        .ok { connectionString := "", username := "", password := "", host := "", port := "",
              dbName := "", query := "SELECT 1", queryValue := 10 } ∧
      parseMySQLMetadata []
          [("query", "SELECT 1"), ("queryValue", "10"), ("host", "db"), ("port", "3306"),
            ("username", "root"), ("dbName", "app")]
          (removeKey [("connectionString", "")] "connectionString") =
        .ok { connectionString := "", username := "root", password := "", host := "db",
              port := "3306", dbName := "app", query := "SELECT 1", queryValue := 10 } ∧
      parseMySQLMetadata []
          [("query", "SELECT 1"), ("queryValue", "10"), ("host", "db"), ("port", "3306"),
            ("username", "root"), ("dbName", "app")] [("connectionString", "")] ≠
        parseMySQLMetadata []
          [("query", "SELECT 1"), ("queryValue", "10"), ("host", "db"), ("port", "3306"),
            ("username", "root"), ("dbName", "app")]
          (removeKey [("connectionString", "")] "connectionString") := by
  decide

/-- C16 (amended): SQL connection resolution uses the auth parameter whenever its key is
present, the empty string included: with `query` present and a numeric `queryValue`, if
`authParams["connectionString"]` is present with value `c` (empty or not) the resolver
succeeds with `connectionString = c` and `host`, `port`, `username`, `dbName`, `password`
empty, whatever `resolvedEnv` holds. Only when `authParams` has no `connectionString` key
does resolution continue, with (b) `resolvedEnv` at the name `declared["connectionString"]`
when that name is resolved, then (c) the discrete fields taken from `declared`. -/
theorem C16_sql_auth_param_presence (resolvedEnv metadata authParams : GoMap)
    (hq : ∃ q, metadata.lookup "query" = some q) (hval : queryValueOK metadata = true) :
    (∀ c, authParams.lookup "connectionString" = some c →
        (∃ md, parseMySQLMetadata resolvedEnv metadata authParams = .ok md ∧
          md.connectionString = c ∧ md.host = "" ∧ md.port = "" ∧ md.username = "" ∧
          md.dbName = "" ∧ md.password = "") ∧
        ∀ resolvedEnv2 : GoMap, parseMySQLMetadata resolvedEnv2 metadata authParams =
          parseMySQLMetadata resolvedEnv metadata authParams) ∧
      (authParams.lookup "connectionString" = none →
        ∀ k c, metadata.lookup "connectionString" = some k → resolvedEnv.lookup k = some c →
          ∃ md, parseMySQLMetadata resolvedEnv metadata authParams = .ok md ∧
            md.connectionString = c) ∧
      (authParams.lookup "connectionString" = none →
        metadata.lookup "connectionString" = none →
          ∀ md, parseMySQLMetadata resolvedEnv metadata authParams = .ok md →
            md.connectionString = "" ∧ metadata.lookup "host" = some md.host ∧
              metadata.lookup "port" = some md.port ∧
              metadata.lookup "username" = some md.username ∧
              metadata.lookup "dbName" = some md.dbName) := by
  obtain ⟨q, hq⟩ := hq
  obtain ⟨v, n, hv, ha⟩ := queryValueOK_cases hval
  refine ⟨fun c hc => ⟨?_, fun env2 => ?_⟩, fun hc k c hk hr => ?_, fun hc hk md h => ?_⟩
  · exact ⟨_, parseMySQL_auth_branch hq hv ha hc, rfl, rfl, rfl, rfl, rfl, rfl⟩
  · rw [parseMySQL_auth_branch hq hv ha hc, parseMySQL_auth_branch hq hv ha hc]
  · refine ⟨_, parseMySQL_env_branch hq hv ha hc hk, ?_⟩
    simp [index, hr]
  · obtain ⟨h1, h2, h3, h4, h5, _⟩ := parseMySQL_discrete_inv h hc hk
    exact ⟨h1, h2, h3, h4, h5⟩

/-- Witness for C16: the empty auth parameter is stored and the declared host is not
read. -/
theorem C16_sql_auth_param_presence_witness :
    ∃ md, parseMySQLMetadata [("KEY", "fromEnv")]
        [("query", "SELECT 1"), ("queryValue", "10"), ("connectionString", "KEY"),
          ("host", "db")] [("connectionString", "")] = .ok md ∧
      md.connectionString = "" ∧ md.host = "" ∧ md.port = "" ∧ md.username = "" ∧
      md.dbName = "" ∧ md.password = "" :=
  ((C16_sql_auth_param_presence [("KEY", "fromEnv")]
      [("query", "SELECT 1"), ("queryValue", "10"), ("connectionString", "KEY"),
        ("host", "db")] [("connectionString", "")] ⟨"SELECT 1", by decide⟩ (by decide)).1 ""
    (by decide)).1

/-! ## C17: the SQL password -/

/-- C17: on every input on which `parseMySQLMetadata` succeeds with no `connectionString`
key in `authParams` or `declared`, `password` is `authParams["password"]` when that key is
present; otherwise it is `resolvedEnv[declared["password"]]` when `declared["password"]` is
present, non-empty and a key of `resolvedEnv`; otherwise it is empty. When a
`connectionString` key is present in `authParams` or `declared`, `password` is empty
whatever `authParams["password"]` and `declared["password"]` hold. -/
theorem C17_sql_password (resolvedEnv metadata authParams : GoMap) (md : mySQLMetadata)
    (h : parseMySQLMetadata resolvedEnv metadata authParams = .ok md) :
    (authParams.lookup "connectionString" = none →
        metadata.lookup "connectionString" = none →
        (∀ p, authParams.lookup "password" = some p → md.password = p) ∧
        (authParams.lookup "password" = none →
          ∀ key pass, metadata.lookup "password" = some key → key ≠ "" →
            resolvedEnv.lookup key = some pass → md.password = pass) ∧
        (authParams.lookup "password" = none →
          (metadata.lookup "password" = none ∨ metadata.lookup "password" = some "" ∨
            ∃ key, metadata.lookup "password" = some key ∧ resolvedEnv.lookup key = none) →
          md.password = "")) ∧
      (((∃ c, authParams.lookup "connectionString" = some c) ∨
          ∃ k, metadata.lookup "connectionString" = some k) →
        md.password = "") := by
  constructor
  · intro hc hk
    obtain ⟨_, _, _, _, _, hpw⟩ := parseMySQL_discrete_inv h hc hk
    refine ⟨fun p hp => ?_, fun hp key pass hkey hne hr => ?_, fun hp hcases => ?_⟩
    · simpa [hp] using hpw
    · simpa [hp, hkey, hne, hr] using hpw
    · rcases hcases with hnone | hempty | ⟨key, hkey, hr⟩
      · simpa [hp, hnone] using hpw
      · simpa [hp, hempty] using hpw
      · by_cases hke : key = ""
        · simpa [hp, hkey, hke] using hpw
        · simpa [hp, hkey, hke, hr] using hpw
  · intro hform
    obtain ⟨hq, v, hv, ha⟩ := parseMySQL_ok_inv h
    cases hc : authParams.lookup "connectionString" with
    | some c =>
      rw [parseMySQL_auth_branch hq hv ha hc] at h
      simp only [Except.ok.injEq] at h
      rw [← h]
    | none =>
      rcases hform with ⟨c, hc2⟩ | ⟨k, hk⟩
      · rw [hc] at hc2
        exact absurd hc2 (by simp)
      · rw [parseMySQL_env_branch hq hv ha hc hk] at h
        simp only [Except.ok.injEq] at h
        rw [← h]

/-- Witness for C17: the declared password name `DB_PASS` is resolved through
`resolvedEnv`. -/
theorem C17_sql_password_witness :
    "s3cret" = "s3cret" ∧
      parseMySQLMetadata [("DB_PASS", "s3cret")]
          [("query", "SELECT 1"), ("queryValue", "10"), ("host", "db"), ("port", "3306"),
            ("username", "root"), ("dbName", "app"), ("password", "DB_PASS")] [] =
        .ok { connectionString := "", username := "root", password := "s3cret",
              host := "db", port := "3306", dbName := "app", query := "SELECT 1",
              queryValue := 10 } :=
  ⟨((C17_sql_password [("DB_PASS", "s3cret")]
      [("query", "SELECT 1"), ("queryValue", "10"), ("host", "db"), ("port", "3306"),
        ("username", "root"), ("dbName", "app"), ("password", "DB_PASS")] []
      { connectionString := "", username := "root", password := "s3cret", host := "db",
        port := "3306", dbName := "app", query := "SELECT 1", queryValue := 10 }
      (by decide)).1 (by decide) (by decide)).2.1 (by decide) "DB_PASS" "s3cret" (by decide)
      (by decide) (by decide),
   by decide⟩

/-! ## C18: one credential path -/

/-- C18: on every input on which `parseAzureQueueMetadata` succeeds, the returned mode is
`""`, `"none"` or `"azure"` and `queueName` is non-empty; under `"azure"` `accountName` is
non-empty and `connection` is empty; under `""` or `"none"` `accountName` is empty
(whatever `declared["accountName"]` holds) and `connection` is the non-empty
`authParams["connection"]`, or else the value of `resolvedEnv` at the connection setting
name. -/
theorem C18_credential_paths (metadata resolvedEnv authParams : GoMap) (podAuth mode : String)
    (md : azureQueueMetadata)
    (h : parseAzureQueueMetadata metadata resolvedEnv authParams podAuth = .ok (md, mode)) :
    (mode = "" ∨ mode = "none" ∨ mode = "azure") ∧ md.queueName ≠ "" ∧
      (mode = "azure" → md.accountName ≠ "" ∧ md.connection = "") ∧
      ((mode = "" ∨ mode = "none") →
        md.accountName = "" ∧
          ((index authParams "connection" ≠ "" ∧
              md.connection = index authParams "connection") ∨
            (index authParams "connection" = "" ∧
              resolvedEnv.lookup (connectionSettingName metadata) = some md.connection))) := by
  obtain ⟨_, _, ⟨_, hqn⟩, _, hpath⟩ := parseAzure_ok_inv h
  rcases hpath with ⟨hm, hacc, hconn⟩ | ⟨hm, hconn, _, hacc⟩
  · refine ⟨?_, hqn, ?_, fun _ => ⟨hacc, hconn⟩⟩
    · rcases hm with hm | hm
      · exact Or.inl hm
      · exact Or.inr (Or.inl hm)
    · intro hz
      rcases hm with hm | hm
      · rw [hm] at hz
        exact absurd hz (by decide)
      · rw [hm] at hz
        exact absurd hz (by decide)
  · refine ⟨Or.inr (Or.inr hm), hqn, fun _ => ⟨hacc, hconn⟩, ?_⟩
    rintro (he | hn)
    · rw [hm] at he
      exact absurd he (by decide)
    · rw [hm] at hn
      exact absurd hn (by decide)

/-- Witness for C18: under `"none"` a declared `accountName` is ignored and the connection
comes from the auth parameter. -/
theorem C18_credential_paths_witness :
    ("none" = "" ∨ "none" = "none" ∨ "none" = "azure") ∧ "q1" ≠ "" ∧
      ("none" = "azure" → "" ≠ "" ∧ "secret" = "") ∧
      (("none" = "" ∨ "none" = "none") →
        "" = "" ∧
          ((index [("connection", "secret")] "connection" ≠ "" ∧
              "secret" = index [("connection", "secret")] "connection") ∨
            (index [("connection", "secret")] "connection" = "" ∧
              List.lookup (connectionSettingName [("queueName", "q1"), ("accountName", "acct")])
                [("AzureWebJobsStorage", "conn")] = some "secret"))) :=
  C18_credential_paths [("queueName", "q1"), ("accountName", "acct")]
    [("AzureWebJobsStorage", "conn")] [("connection", "secret")] "none" "none"
    { targetQueueLength := 5, queueName := "q1", connection := "secret",
      useAAdPodIdentity := false, accountName := "" } (by decide)

end Keda
